import Mathlib

/-!
Verification of the manifest-reconciliation core of the
`data-kubeflow-integrator` charm against its natural-language specification.

The Python source is shallowly embedded: dictionaries become ordered
association lists (`Dict`), Python truthiness on optional strings becomes
`truthy?`, fallible code (pydantic validation, dict `[]` access) returns
`Except String _`, and the jinja-template rendering step (the templates under
`src/templates` are not part of the sources) is modelled by keeping the
structured manifest-info records themselves as the manifest content.
-/

/-- Ordered string-keyed dictionary, as Python `dict[str, str]`:
insertion order is preserved, keys are unique in every dictionary the
program builds. -/
abbrev Dict := List (String × String)

/-- Python truthiness of an optional string: `None` and `""` are falsy.
Returns the value exactly when it is truthy. -/
def truthy? (o : Option String) : Option String :=
  match o with
  | none => none
  | some s => if s = "" then none else some s

/-- Embeds `d.get(k)`: first value stored under `k`, if any. -/
def dictGet (d : Dict) (k : String) : Option String :=
  (d.find? (fun kv => kv.1 = k)).map (fun kv => kv.2)

/-- Embeds `d[k]`: raising dictionary access, `KeyError` when the key is absent. -/
def dictGetE (d : Dict) (k : String) : Except String String :=
  match dictGet d k with
  | some v => Except.ok v
  | none => Except.error ("KeyError: " ++ k)

/-- Embeds `d.pop(k, None)`: remove the entry stored under `k` (if any). -/
def dictPop (d : Dict) (k : String) : Dict :=
  d.filter (fun kv => kv.1 ≠ k)

/-- Embeds `d[k] = v`: update in place (keeping the position) when the key exists,
append at the end otherwise — Python dict assignment semantics. -/
def dictInsert (d : Dict) (k : String) (v : String) : Dict :=
  if d.any (fun kv => kv.1 = k) then
    d.map (fun kv => if kv.1 = k then (k, v) else kv)
  else d ++ [(k, v)]

/-- Embeds `value.replace("\n", "")`: drop every newline character. -/
def stripNewlines (s : String) : String :=
  String.mk (s.data.filter (fun c => c ≠ Char.ofNat 10))

/-- UTF-8 encoding of one character, as `str.encode()` produces it. -/
def utf8EncodeCharBytes (c : Char) : List Nat :=
  let n := c.toNat
  if n < 128 then [n]
  else if n < 2048 then [192 + n / 64, 128 + n % 64]
  else if n < 65536 then [224 + n / 4096, 128 + (n / 64) % 64, 128 + n % 64]
  else [240 + n / 262144, 128 + (n / 4096) % 64, 128 + (n / 64) % 64, 128 + n % 64]

/-- The 64 digits of standard base64. -/
def base64Alphabet : List Char :=
  "ABCDEFGHIJKLMNOPQRSTUVWXYZabcdefghijklmnopqrstuvwxyz0123456789+/".data

/-- Base64 digit for a 6-bit value. -/
def b64Char (n : Nat) : Char := base64Alphabet.getD n (Char.ofNat 65)

/-- Standard base64 of a byte sequence, with `=` padding. -/
def b64EncodeBytes : List Nat → List Char
  | [] => []
  | [a] => [b64Char (a / 4), b64Char (a % 4 * 16), Char.ofNat 61, Char.ofNat 61]
  | [a, b] => [b64Char (a / 4), b64Char (a % 4 * 16 + b / 16), b64Char (b % 16 * 4), Char.ofNat 61]
  | a :: b :: c :: rest =>
    b64Char (a / 4) :: b64Char (a % 4 * 16 + b / 16) :: b64Char (b % 16 * 4 + c / 64) ::
      b64Char (c % 64) :: b64EncodeBytes rest

/-- Embeds `base64.b64encode(value.encode()).decode("utf-8")`. -/
def b64encode (s : String) : String :=
  String.mk (b64EncodeBytes (s.data.flatMap utf8EncodeCharBytes))

/-- Effectful map over a list, evaluating left to right and stopping at the
first failure — the behaviour of a Python list comprehension whose element
expression can raise. -/
def mapME {α β : Type} (f : α → Except String β) : List α → Except String (List β)
  | [] => Except.ok []
  | a :: as =>
    match f a with
    | Except.error e => Except.error e
    | Except.ok b =>
      match mapME f as with
      | Except.error e => Except.error e
      | Except.ok bs => Except.ok (b :: bs)

/-- Sequencing of fallible steps (Python statements that may raise): run the
first, feed its result to the rest, propagate the first exception. -/
def bindE {α β : Type} (e : Except String α) (f : α → Except String β) : Except String β :=
  match e with
  | Except.error msg => Except.error msg
  | Except.ok a => f a

/-- Embeds `utils.k8s_models.EnvVarFromSecret`: environment variable sourced from a
secret key. -/
structure EnvVarFromSecret where
  secret_name : String
  secret_key : String
  optional : Bool := false
deriving DecidableEq

/-- Modelled from the spec: `EnvVarFromField`, the field-reference alternative
of a PodDefault env var.  `utils/helpers_manifests.py` imports it from
`utils.k8s_models` and the unit tests expect `fieldRef` env vars, but the
copy of `utils/k8s_models.py` in the sources predates it. -/
structure EnvVarFromField where
  field_path : String
deriving DecidableEq

/-- Embeds `utils.k8s_models.PodDefaultEnvVar`: tagged union of a literal value, a
secret-key reference and a field reference.  The `fieldref` alternative is
modelled from the spec (see `EnvVarFromField`). -/
structure PodDefaultEnvVar where
  name : String
  value : Option String := none
  secret : Option EnvVarFromSecret := none
  fieldref : Option EnvVarFromField := none
deriving DecidableEq

/-- Modelled from the spec: construction-time validation of `PodDefaultEnvVar`
("exactly one alternative must be populated — render-time validation rejects
an env var with none or multiple set").  The validator in the stale
`utils/k8s_models.py` under the sources does not know the `fieldref`
alternative, so the current validator is modelled from the words of the spec;
an empty-string literal value is unpopulated (Python truthiness). -/
def mkPodDefaultEnvVar (name : String) (value : Option String)
    (secret : Option EnvVarFromSecret) (fieldref : Option EnvVarFromField) :
    Except String PodDefaultEnvVar :=
  if (truthy? value).isSome.toNat + secret.isSome.toNat + fieldref.isSome.toNat = 1 then
    Except.ok { name := name, value := value, secret := secret, fieldref := fieldref }
  else
    Except.error "Exactly one of value, secret or fieldref must be provided"

/-- Embeds `utils.k8s_models.PodDefaultSecretVolume`. -/
structure PodDefaultSecretVolume where
  name : String
  secret_name : String
  mount_path : String
deriving DecidableEq

/-- Embeds `utils.k8s_models.PodDefaultAnnotation` (key/value annotation entry). -/
structure PodDefaultAnnotationEntry where
  key : String
  value : String
deriving DecidableEq

/-- Embeds `None if profile == "*" else profile` — the namespace put on every
generated object. -/
def namespaceOf (profile : String) : Option String :=
  if profile = "*" then none else some profile

/-- Embeds `utils.k8s_models.K8sSecretManifestInfo`. -/
structure K8sSecretManifestInfo where
  name : String
  namespace' : Option String
  labels : Option (List (String × String)) := none
  data : Dict
deriving DecidableEq

/-- Embeds `utils.k8s_models.K8sPodDefaultManifestInfo`. -/
structure K8sPodDefaultManifestInfo where
  name : String
  namespace' : Option String
  desc : String
  selector_name : String
  env_vars : List PodDefaultEnvVar
  secret_volumes : Option (List PodDefaultSecretVolume) := none
  annotations : Option (List PodDefaultAnnotationEntry) := none
  args : Option (List String) := none
deriving DecidableEq

/-- One subject of a parsed RoleBinding document; fields that are absent from
the YAML mapping are `none`, `extra` stands for any further keys, which the
renderer never touches. -/
structure SparkSubject where
  kind : Option String := none
  name : Option String := none
  namespace' : Option String := none
  extra : List (String × String) := []
deriving DecidableEq

/-- One document of the parsed multi-document grant bundle
(`yaml.safe_load_all`): `kind` and `metadata.name` may be absent, `subjects`
is only present on RoleBindings, `extra` stands for the rest of the document,
which the renderer passes through untouched. -/
structure SparkDoc where
  kind : Option String := none
  name : Option String := none
  subjects : Option (List SparkSubject) := none
  extra : List (String × String) := []
deriving DecidableEq

/-- A rendered Kubernetes manifest (`KubernetesManifest` wraps the rendered
text; equality is structural, so we keep the structured content). -/
inductive Manifest where
  | secret (info : K8sSecretManifestInfo)
  | podDefault (info : K8sPodDefaultManifestInfo)
  | sparkDoc (doc : SparkDoc)
deriving DecidableEq

/-- Embeds `utils.k8s_models.ReconciledManifests`: one ordered sequence of manifests
per downstream channel. -/
structure ReconciledManifests where
  secrets : List Manifest := []
  poddefaults : List Manifest := []
  serviceaccounts : List Manifest := []
  roles : List Manifest := []
  role_bindings : List Manifest := []
deriving DecidableEq

/-- Embeds `ReconciledManifests()` — the all-empty batch. -/
def ReconciledManifests.empty : ReconciledManifests :=
  { secrets := [], poddefaults := [], serviceaccounts := [], roles := [], role_bindings := [] }

/-- Embeds `ReconciledManifests.__add__`: per-channel concatenation. -/
def ReconciledManifests.add (a b : ReconciledManifests) : ReconciledManifests :=
  { secrets := a.secrets ++ b.secrets
    poddefaults := a.poddefaults ++ b.poddefaults
    serviceaccounts := a.serviceaccounts ++ b.serviceaccounts
    roles := a.roles ++ b.roles
    role_bindings := a.role_bindings ++ b.role_bindings }

/-- Embeds `constants.K8S_TLS_SECRET_VOLUME`. -/
def K8S_TLS_SECRET_VOLUME : String := "tls-secret"

/-- Embeds `constants.K8S_TLS_MOUNTPATH`. -/
def K8S_TLS_MOUNTPATH : String := "/etc/data-kubeflow-integrator"

/-- Embeds `constants.K8S_DATABASE_SECRET_NAME`. -/
def K8S_DATABASE_SECRET_NAME : Dict :=
  [("postgresql", "postgresql-secret"), ("mongodb", "mongodb-secret"),
   ("mysql", "mysql-secret"), ("opensearch", "opensearch-secret"),
   ("kafka", "kafka-secret"), ("spark", "spark-secret")]

/-- Embeds `constants.K8S_DATABASE_TLS_SECRET_NAME` (no entry for spark). -/
def K8S_DATABASE_TLS_SECRET_NAME : Dict :=
  [("postgresql", "postgresql-tls-secret"), ("mongodb", "mongodb-tls-secret"),
   ("mysql", "mysql-tls-secret"), ("opensearch", "opensearch-tls-secret"),
   ("kafka", "kafka-tls-secret")]

/-- Embeds `constants.K8S_DATABASE_PODDEFAULT_NAME`. -/
def K8S_DATABASE_PODDEFAULT_NAME : Dict :=
  [("postgresql", "postgresql-pod-default"), ("mongodb", "mongodb-pod-default"),
   ("mysql", "mysql-pod-default"), ("opensearch", "opensearch-pod-default"),
   ("kafka", "kafka-pod-default"), ("spark", "spark-pod-default")]

/-- Embeds `constants.K8S_DATABASE_PODDEFAULT_DESC`. -/
def K8S_DATABASE_PODDEFAULT_DESC : Dict :=
  [("postgresql", "Postgresql Credentials"), ("mongodb", "MongoDB Credentials"),
   ("mysql", "Mysql Credentials"), ("opensearch", "OpenSearch Credentials"),
   ("kafka", "Kafka Credentials"), ("spark", "Spark Service Account")]

/-- Embeds `constants.K8S_DATABASE_PODDEFAULT_SELECTOR_LABEL`. -/
def K8S_DATABASE_PODDEFAULT_SELECTOR_LABEL : Dict :=
  [("postgresql", "access-postgresql"), ("mongodb", "access-mongodb"),
   ("mysql", "access-mysql"), ("opensearch", "access-opensearch"),
   ("kafka", "access-kafka"), ("spark", "access-spark")]

/-- Embeds `constants.K8S_DATABASE_TLS_CERT_PATH` (no entry for spark). -/
def K8S_DATABASE_TLS_CERT_PATH : Dict :=
  [("postgresql", K8S_TLS_MOUNTPATH ++ "/postgresql_ca.crt"),
   ("mongodb", K8S_TLS_MOUNTPATH ++ "/mongodb_ca.crt"),
   ("mysql", K8S_TLS_MOUNTPATH ++ "/mysql_ca.crt"),
   ("opensearch", K8S_TLS_MOUNTPATH ++ "/opensearch_ca.crt"),
   ("kafka", K8S_TLS_MOUNTPATH ++ "/kafka_ca.crt")]

/-- Embeds `constants.SPARK_DRIVER_PORT`. -/
def SPARK_DRIVER_PORT : Nat := 37371

/-- Embeds `constants.SPARK_BLOCK_MANAGER_PORT`. -/
def SPARK_BLOCK_MANAGER_PORT : Nat := 6060

/-- Embeds `constants.SPARK_PIPELINE_PODDEFAULT_NAME`. -/
def SPARK_PIPELINE_PODDEFAULT_NAME : String := "pyspark-pipeline"

/-- Embeds `constants.SPARK_NOTEBOOK_PODDEFAULT_NAME`. -/
def SPARK_NOTEBOOK_PODDEFAULT_NAME : String := "pyspark-notebook"

/-- Embeds `constants.SPARK_PIPELINE_PODDEFAULT_DESC`. -/
def SPARK_PIPELINE_PODDEFAULT_DESC : String := "Configure PySpark for Kubeflow pipelines"

/-- Embeds `constants.SPARK_NOTEBOOK_PODDEFAULT_DESC`. -/
def SPARK_NOTEBOOK_PODDEFAULT_DESC : String := "pyspark-notebook"

/-- Modelled from the spec: `constants.SPARK_PIPELINE_PODDEFAULT_SELECTOR_LABEL`,
imported by `managers/manifests.py` but missing from the copy of
`constants.py` in the sources; the unit tests expect this selector label. -/
def SPARK_PIPELINE_PODDEFAULT_SELECTOR_LABEL : String := "access-spark-pipeline"

/-- Modelled from the spec: `constants.SPARK_NOTEBOOK_PODDEFAULT_SELECTOR_LABEL`,
imported by `managers/manifests.py` but missing from the copy of
`constants.py` in the sources; the unit tests expect this selector label. -/
def SPARK_NOTEBOOK_PODDEFAULT_SELECTOR_LABEL : String := "access-spark-notebook"

/-- Embeds `key.upper()`: per-character ASCII uppercasing (the credential keys this
program uppercases are plain ASCII). -/
def strToUpper (s : String) : String := String.mk (s.data.map Char.toUpper)

/-- Embeds `utils.helpers_manifests.format_credentials_data`: keep only truthy
values, uppercase and database-prefix the keys, base64-encode the values. -/
def format_credentials_data (data : Dict) (database_name : String) : Dict :=
  data.filterMap (fun kv =>
    if kv.2 ≠ "" then
      some (strToUpper database_name ++ "_" ++ strToUpper kv.1, b64encode kv.2)
    else none)

/-- Embeds `utils.helpers_manifests.generate_tls_secret_manifest`: a TLS secret is
generated only when `tls-ca` is present, truthy and not the `"disabled"`
sentinel. -/
def generate_tls_secret_manifest (profile : String) (creds : Dict)
    (database_name : String) : Except String (Option K8sSecretManifestInfo) :=
  match truthy? (dictGet creds "tls-ca") with
  | some ca =>
    if ca ≠ "disabled" then
      bindE (dictGetE K8S_DATABASE_TLS_SECRET_NAME database_name) fun tlsName =>
        Except.ok (some
          { name := tlsName
            namespace' := namespaceOf profile
            labels := none
            data := [(database_name ++ "_ca.crt", b64encode ca)] })
    else Except.ok none
  | none => Except.ok none

/-- Embeds `utils.helpers_manifests.generate_secret_manifest`. -/
def generate_secret_manifest (profile : String) (creds : Dict)
    (database_name : String) : Except String K8sSecretManifestInfo :=
  bindE (dictGetE K8S_DATABASE_SECRET_NAME database_name) fun secretName =>
    Except.ok
      { name := secretName
        namespace' := namespaceOf profile
        labels := none
        data := format_credentials_data creds database_name }

/-- Embeds `utils.helpers_manifests.generate_poddefault_manifest`.  The
`selector_name` parameter is modelled from the spec: the caller in
`managers/manifests.py` passes it but the copy of `helpers_manifests.py` in
the sources predates it (it always used the per-database selector table,
which the optional parameter overrides, like `poddefault_name`). -/
def generate_poddefault_manifest (profile : String) (creds : Dict)
    (database_name : String) (from_secret : Option String)
    (tls_secret : Option String) (poddefault_name : Option String)
    (poddefault_description : Option String) (annotations : Option Dict)
    (args : Option (List String)) (fieldrefs : Option Dict)
    (selector_name : Option String) : Except String K8sPodDefaultManifestInfo :=
  let poddefault_secret_volumes : Option (List PodDefaultSecretVolume) :=
    match truthy? tls_secret with
    | some ts =>
      some [{ name := K8S_TLS_SECRET_VOLUME, secret_name := ts, mount_path := K8S_TLS_MOUNTPATH }]
    | none => none
  let envVars1E : Except String (List PodDefaultEnvVar) :=
    match truthy? from_secret with
    | some fs =>
      mapME
        (fun kv => mkPodDefaultEnvVar kv.1 none (some { secret_name := fs, secret_key := kv.1 }) none)
        (format_credentials_data creds database_name)
    | none =>
      let credsStripped :=
        match truthy? (dictGet creds "tls-ca") with
        | some v => dictInsert creds "tls-ca" (stripNewlines v)
        | none => creds
      mapME (fun kv => mkPodDefaultEnvVar kv.1 (some kv.2) none none) credsStripped
  let poddefaultAnnotations : Option (List PodDefaultAnnotationEntry) :=
    match annotations with
    | some l => if l = [] then none else some (l.map fun kv => { key := kv.1, value := kv.2 })
    | none => none
  let envVars2E : Except String (List PodDefaultEnvVar) :=
    match fieldrefs with
    | some l =>
      if l = [] then Except.ok []
      else mapME (fun kv => mkPodDefaultEnvVar kv.1 none none (some { field_path := kv.2 })) l
    | none => Except.ok []
  bindE envVars1E fun envVars1 =>
  bindE envVars2E fun envVars2 =>
  bindE (match truthy? poddefault_name with
         | some n => Except.ok n
         | none => dictGetE K8S_DATABASE_PODDEFAULT_NAME database_name) fun pdName =>
  bindE (match truthy? poddefault_description with
         | some d => Except.ok d
         | none => dictGetE K8S_DATABASE_PODDEFAULT_DESC database_name) fun pdDesc =>
  bindE (match truthy? selector_name with
         | some s => Except.ok s
         | none => dictGetE K8S_DATABASE_PODDEFAULT_SELECTOR_LABEL database_name) fun sel =>
  Except.ok
    { name := pdName
      namespace' := namespaceOf profile
      desc := pdDesc
      selector_name := sel
      env_vars := envVars1 ++ envVars2
      secret_volumes := poddefault_secret_volumes
      annotations := poddefaultAnnotations
      args := args }

/-- The namespace placeholder written into RoleBinding subjects, resolved by
the downstream dispatcher at apply time. -/
def NAMESPACE_PLACEHOLDER : String := "\x7b\x7b NAMESPACE \x7d\x7d"

/-- Patch of one RoleBinding subject: a `namespace` field that is present is
rewritten to the placeholder, a subject without one is skipped. -/
def patchSubject (s : SparkSubject) : SparkSubject :=
  match s.namespace' with
  | none => s
  | some _ => { s with namespace' := some NAMESPACE_PLACEHOLDER }

/-- Embeds `KubernetesManifestsManager._patch_rolebinding_subject_namespace`. -/
def patchRolebindingSubjectNamespace (rolebinding : SparkDoc) : SparkDoc :=
  match rolebinding.subjects with
  | none => rolebinding
  | some [] => rolebinding
  | some subs => { rolebinding with subjects := some (subs.map patchSubject) }

/-- The list comprehension `[... for res in manifest_yaml if res["kind"] == k]`:
walks the parsed documents in order and raises `KeyError` at the first
document with no `kind` field. -/
def filterKindE (k : String) : List SparkDoc → Except String (List SparkDoc)
  | [] => Except.ok []
  | d :: rest =>
    match d.kind with
    | none => Except.error "KeyError: kind"
    | some dk =>
      match filterKindE k rest with
      | Except.error e => Except.error e
      | Except.ok r => Except.ok (if dk = k then d :: r else r)

/-- Embeds `KubernetesManifestsManager.reconcile_database_manifests`.  The manager
state is reduced to the data the method reads: the validated profile (if
configured) and whether the `secrets` and `pod-defaults` dispatcher relations
exist.  `creds0` is the credential map handed over by the backend manager. -/
def reconcile_database_manifests (profileConfig : Option String)
    (secretsRelated poddefaultsRelated : Bool) (creds0 : Dict)
    (database_name : String) : Except String ReconciledManifests :=
  match profileConfig with
  | none => Except.ok ReconciledManifests.empty
  | some profile =>
    let creds := dictPop creds0 "data"
    bindE
      (cond secretsRelated
        (bindE (generate_tls_secret_manifest profile creds database_name) fun tlsOpt =>
          match tlsOpt with
          | none =>
            bindE (generate_secret_manifest profile creds database_name) fun dbSecret =>
              Except.ok (false, true, [Manifest.secret dbSecret])
          | some tlsInfo =>
            bindE (dictGetE K8S_DATABASE_TLS_CERT_PATH database_name) fun certPath =>
            bindE (generate_secret_manifest profile
                (dictPop (dictInsert creds "ca_cert_path" certPath) "tls-ca")
                database_name) fun dbSecret =>
              Except.ok (true, true, [Manifest.secret tlsInfo, Manifest.secret dbSecret]))
        (Except.ok (false, false, [])))
      fun sp =>
    bindE
      (cond poddefaultsRelated
        (bindE
          (cond sp.1
            (bindE (dictGetE K8S_DATABASE_TLS_CERT_PATH database_name) fun certPath =>
              Except.ok (dictPop (dictInsert creds "ca_cert_path" certPath) "tls-ca"))
            (Except.ok creds))
          fun creds2 =>
        bindE
          (cond sp.2.1
            (bindE (dictGetE K8S_DATABASE_SECRET_NAME database_name) fun n =>
              Except.ok (some n))
            (Except.ok none))
          fun fromSecret =>
        bindE
          (cond sp.1
            (bindE (dictGetE K8S_DATABASE_TLS_SECRET_NAME database_name) fun n =>
              Except.ok (some n))
            (Except.ok none))
          fun tlsSecretName =>
        bindE (generate_poddefault_manifest profile creds2 database_name fromSecret
            tlsSecretName none none none none none none) fun pd =>
          Except.ok [Manifest.podDefault pd])
        (Except.ok []))
      fun poddefaultManifests =>
    Except.ok
      { secrets := sp.2.2
        poddefaults := poddefaultManifests
        serviceaccounts := []
        roles := []
        role_bindings := [] }

/-- Embeds `fieldrefs={"SPARK_NAMESPACE": "metadata.namespace"}` passed to both spark
PodDefaults. -/
def sparkFieldrefs : Dict := [("SPARK_NAMESPACE", "metadata.namespace")]

/-- The istio sidecar-exclusion annotations of the notebook PodDefault,
naming the spark driver and block-manager ports. -/
def sparkNotebookAnnotations : Dict :=
  [("traffic.sidecar.istio.io/excludeInboundPorts",
    toString SPARK_DRIVER_PORT ++ "," ++ toString SPARK_BLOCK_MANAGER_PORT),
   ("traffic.sidecar.istio.io/excludeOutboundPorts",
    toString SPARK_DRIVER_PORT ++ "," ++ toString SPARK_BLOCK_MANAGER_PORT)]

/-- The fixed CLI argument list of the notebook PodDefault. -/
def sparkNotebookArgs : List String :=
  ["--namespace", "$SPARK_NAMESPACE", "--username", "$SPARK_SERVICE_ACCOUNT",
   "--conf", "spark.driver.port=" ++ toString SPARK_DRIVER_PORT,
   "--conf", "spark.blockManager.port=" ++ toString SPARK_BLOCK_MANAGER_PORT]

/-- Embeds `KubernetesManifestsManager.reconcile_spark_manifests`.  `manifestYaml` is
the already-parsed multi-document bundle (`yaml.safe_load_all` is the external
yaml library; an unparseable stream raises before this logic is reached), the
five booleans are the dispatcher-relation flags, `serviceAccount` the name
split out of the `"<namespace>:<name>"` relation field. -/
def reconcile_spark_manifests (profileConfig : Option String)
    (secretsRelated serviceAccountsRelated rolesRelated rolebindingsRelated
     poddefaultsRelated : Bool) (manifestYaml : List SparkDoc)
    (serviceAccount : String) : Except String ReconciledManifests :=
  match profileConfig with
  | none => Except.ok ReconciledManifests.empty
  | some profile =>
    bindE (cond secretsRelated (filterKindE "Secret" manifestYaml) (Except.ok []))
      fun secretDocs =>
    bindE (cond serviceAccountsRelated (filterKindE "ServiceAccount" manifestYaml)
        (Except.ok []))
      fun saDocs =>
    bindE (cond rolesRelated (filterKindE "Role" manifestYaml) (Except.ok []))
      fun roleDocs =>
    bindE (cond rolebindingsRelated (filterKindE "RoleBinding" manifestYaml) (Except.ok []))
      fun rbDocs =>
    bindE (generate_poddefault_manifest profile
        [("SPARK_SERVICE_ACCOUNT", serviceAccount)] "spark" none none
        (some SPARK_PIPELINE_PODDEFAULT_NAME) (some SPARK_PIPELINE_PODDEFAULT_DESC)
        none none (some sparkFieldrefs) (some SPARK_PIPELINE_PODDEFAULT_SELECTOR_LABEL))
      fun pipelinePD =>
    bindE (generate_poddefault_manifest profile
        [("SPARK_SERVICE_ACCOUNT", serviceAccount)] "spark" none none
        (some SPARK_NOTEBOOK_PODDEFAULT_NAME) (some SPARK_NOTEBOOK_PODDEFAULT_DESC)
        (some sparkNotebookAnnotations) (some sparkNotebookArgs) (some sparkFieldrefs)
        (some SPARK_NOTEBOOK_PODDEFAULT_SELECTOR_LABEL))
      fun notebookPD =>
    Except.ok
      { secrets := secretDocs.map Manifest.sparkDoc
        poddefaults :=
          cond poddefaultsRelated
            [Manifest.podDefault pipelinePD, Manifest.podDefault notebookPD] []
        serviceaccounts := saDocs.map Manifest.sparkDoc
        roles := roleDocs.map Manifest.sparkDoc
        role_bindings :=
          (rbDocs.map patchRolebindingSubjectNamespace).map Manifest.sparkDoc }

/-- One entry of the pydantic error list, `err.errors()`: the offending field (`loc[0]`,
reported under its config alias) and the error type (`"missing"` or some
other type for an invalid value). -/
structure PyError where
  loc : String
  typ : String
deriving DecidableEq

/-- Embeds `data_platform_helpers` `StatusObject` (status/message/action). -/
structure StatusObject where
  status : String
  message : String
  action : Option String
deriving DecidableEq

/-- Embeds `CharmStatuses.ACTIVE_IDLE`. -/
def activeIdle : StatusObject := { status := "active", message := "", action := none }

/-- Embeds `CharmStatuses.missing_integration_with_opensearch`. -/
def missingIntegrationWithOpensearch : StatusObject :=
  { status := "blocked"
    message := "Missing relation with: OpenSearch"
    action := some "Integrate with an OpenSearch Charm" }

/-- Embeds `CharmStatuses.missing_integration_with_kafka`. -/
def missingIntegrationWithKafka : StatusObject :=
  { status := "blocked"
    message := "Missing relation with: Kafka"
    action := some "Integrate with a Kafka Charm" }

/-- Embeds the comma-separated join of the quoted field names used by the
config status messages. -/
def quoteFields (fields : List String) : String :=
  String.intercalate ", " (fields.map (fun f => "\x27" ++ f ++ "\x27"))

/-- Embeds `ConfigStatuses.missing_config_parameters`. -/
def missingConfigParameters (fields : List String) : StatusObject :=
  { status := "blocked"
    message := "Missing config(s): " ++ quoteFields fields
    action := some ("Set config(s): " ++ quoteFields fields) }

/-- Embeds `ConfigStatuses.invalid_config_parameters`. -/
def invalidConfigParameters (fields : List String) : StatusObject :=
  { status := "blocked"
    message := "Invalid config(s): " ++ quoteFields fields
    action := some ("Fix invalid config(s): " ++ quoteFields fields) }

/-- Embeds `core.config.nullify_empty_string`. -/
def nullify_empty_string (s : String) : Option String :=
  if s = "" then none else some s

/-- Embeds `core.config.OpenSearchConfig` after successful validation. -/
structure OpenSearchConfig where
  index_name : String
  extra_user_roles : Option String
deriving DecidableEq

/-- Validation of `OpenSearchConfig(**config)`: the `opensearch-index-name`
key must be present (the before-validator drops a `None` value so that a
missing value reports as `"missing"`), and after `nullify_empty_string` the
value must still be a string — an empty string therefore fails the `str`
type check with a non-missing error type. -/
def openSearchConfigValidate (indexName : Option String)
    (extraUserRoles : Option String) : Except (List PyError) OpenSearchConfig :=
  match indexName with
  | none => Except.error [{ loc := "opensearch-index-name", typ := "missing" }]
  | some s =>
    match nullify_empty_string s with
    | none => Except.error [{ loc := "opensearch-index-name", typ := "string_type" }]
    | some v =>
      Except.ok { index_name := v, extra_user_roles := extraUserRoles.bind nullify_empty_string }

/-- Embeds `core.config.KafkaConfig` after successful validation
(the consumer-group-prefix field is abbreviated `consumer_group_pfx` here). -/
structure KafkaConfig where
  topic_name : Option String
  extra_user_roles : Option String
  consumer_group_pfx : Option String
deriving DecidableEq

/-- Validation of `KafkaConfig(**config)`: `kafka-topic-name` must be present
(missing otherwise); an empty topic nullifies to `None`, which the field type
allows; a non-empty topic must satisfy the external
`KafkaRequires.is_topic_value_acceptable` check, abstracted as
`topicAcceptable`, else `validate_topic_name` raises a value error. -/
def kafkaConfigValidate (topicAcceptable : String → Bool) (topicName : Option String)
    (extraUserRoles : Option String) (consumerGroupPfx : Option String) :
    Except (List PyError) KafkaConfig :=
  match topicName with
  | none => Except.error [{ loc := "kafka-topic-name", typ := "missing" }]
  | some s =>
    match nullify_empty_string s with
    | none =>
      Except.ok
        { topic_name := none
          extra_user_roles := extraUserRoles.bind nullify_empty_string
          consumer_group_pfx := consumerGroupPfx.bind nullify_empty_string }
    | some t =>
      if topicAcceptable t then
        Except.ok
          { topic_name := some t
            extra_user_roles := extraUserRoles.bind nullify_empty_string
            consumer_group_pfx := consumerGroupPfx.bind nullify_empty_string }
      else Except.error [{ loc := "kafka-topic-name", typ := "value_error" }]

/-- The username/password half of the databag of one backend relation, as read by
`is_opensearch_related` / `is_kafka_related`. -/
structure RelationData where
  username : Option String := none
  password : Option String := none
deriving DecidableEq

/-- Embeds `is_opensearch_related` / `is_kafka_related`: some relation carries a
truthy username and a truthy password. -/
def isBackendRelated (relations : List RelationData) : Bool :=
  relations.any (fun r => (truthy? r.username).isSome && (truthy? r.password).isSome)

/-- The status list built from a config-validation failure: only when the
backend relation exists are the missing/invalid config signals emitted. -/
def configErrorStatuses (errs : List PyError) (relationsCount : Nat) : List StatusObject :=
  if relationsCount > 0 then
    let missing := (errs.filter (fun e => e.typ = "missing")).map (fun e => e.loc)
    let invalid := (errs.filter (fun e => e.typ ≠ "missing")).map (fun e => e.loc)
    (if missing ≠ [] then [missingConfigParameters missing] else []) ++
      (if invalid ≠ [] then [invalidConfigParameters invalid] else [])
  else []

/-- Embeds `OpenSearchManager.get_statuses`: validate the config; on failure emit the
config signals only if an opensearch relation exists; on success emit a
missing-integration signal when no relation carries usable credentials;
fall back to active/idle when nothing was emitted. -/
def opensearchGetStatuses (indexName : Option String) (extraUserRoles : Option String)
    (relations : List RelationData) : List StatusObject :=
  let statusList :=
    match openSearchConfigValidate indexName extraUserRoles with
    | Except.error errs => configErrorStatuses errs relations.length
    | Except.ok _ =>
      if ¬ isBackendRelated relations then [missingIntegrationWithOpensearch] else []
  if statusList = [] then [activeIdle] else statusList

/-- Embeds `KafkaManager.get_statuses`: like the opensearch gate but only on the
`"app"` scope (the unit scope always reports active/idle). -/
def kafkaGetStatuses (scope : String) (topicAcceptable : String → Bool)
    (topicName : Option String) (extraUserRoles : Option String)
    (consumerGroupPfx : Option String) (relations : List RelationData) :
    List StatusObject :=
  if scope = "app" then
    let statusList :=
      match kafkaConfigValidate topicAcceptable topicName extraUserRoles consumerGroupPfx with
      | Except.error errs => configErrorStatuses errs relations.length
      | Except.ok _ =>
        if ¬ isBackendRelated relations then [missingIntegrationWithKafka] else []
    if statusList = [] then [activeIdle] else statusList
  else [activeIdle]

/-- Concrete info records produced in the wildcard-scoping witness run. -/
def c4TlsInfo : K8sSecretManifestInfo :=
  { name := "kafka-tls-secret", namespace' := some "team-a", labels := none
    data := [("kafka_ca.crt", "Qw==")] }

/-- Concrete credentials-secret record of the wildcard-scoping witness run. -/
def c4SecretInfo : K8sSecretManifestInfo :=
  { name := "mysql-secret", namespace' := none, labels := none, data := [] }

/-- Concrete PodDefault record of the wildcard-scoping witness run. -/
def c4PodDefaultInfo : K8sPodDefaultManifestInfo :=
  { name := "opensearch-pod-default", namespace' := some "team-a"
    desc := "OpenSearch Credentials", selector_name := "access-opensearch"
    env_vars := [{ name := "username", value := some "u", secret := none, fieldref := none }]
    secret_volumes := none, annotations := none, args := none }

/-- The batch inside a successful reconciliation result (empty on error);
used to name concrete witness outputs without spelling them out. -/
def okD (e : Except String ReconciledManifests) : ReconciledManifests :=
  match e with
  | Except.ok b => b
  | Except.error _ => ReconciledManifests.empty

/-- A RoleBinding document whose single subject lives in namespace `ns-x`
(concrete scenario C of the spec). -/
def c6RoleBindingDoc : SparkDoc :=
  { kind := some "RoleBinding", name := some "spark-role-binding"
    subjects := some [{ kind := some "ServiceAccount", name := some "spark"
                        namespace' := some "ns-x", extra := [] }]
    extra := [] }

/-- The secret-key-reference env var generated for one formatted credential
entry when a credentials Secret backs the PodDefault. -/
def secretRefEnvVar (fs : String) (kv : String × String) : PodDefaultEnvVar :=
  { name := kv.1, value := none
    secret := some { secret_name := fs, secret_key := kv.1, optional := false }
    fieldref := none }

@[simp]
theorem bindE_ok {α β : Type} (a : α) (f : α → Except String β) :
    bindE (Except.ok a) f = f a := rfl

@[simp]
theorem bindE_error {α β : Type} (msg : String) (f : α → Except String β) :
    bindE (Except.error msg) f = Except.error msg := rfl

theorem bindE_ok_dest {α β : Type} {e : Except String α} {f : α → Except String β} {b : β}
    (h : bindE e f = Except.ok b) : ∃ a, e = Except.ok a ∧ f a = Except.ok b := by
  cases e with
  | error msg => simp at h
  | ok a => exact ⟨a, rfl, h⟩

theorem mapME_ok_of_fn_ok {α β : Type} (f : α → Except String β) (g : α → β)
    (hf : ∀ a, f a = Except.ok (g a)) : ∀ l : List α, mapME f l = Except.ok (l.map g) := by
  intro l
  induction l with
  | nil => rfl
  | cons a as ih => simp [mapME, hf a, ih]

theorem mapME_mem {α β : Type} (f : α → Except String β) :
    ∀ (l : List α) (bs : List β), mapME f l = Except.ok bs →
      ∀ b ∈ bs, ∃ a ∈ l, f a = Except.ok b := by
  intro l
  induction l with
  | nil =>
    intro bs h b hb
    simp [mapME] at h
    subst h
    simp at hb
  | cons a as ih =>
    intro bs h b hb
    simp only [mapME] at h
    cases hfa : f a with
    | error e => rw [hfa] at h; exact absurd h (by simp)
    | ok b0 =>
      rw [hfa] at h
      cases hrest : mapME f as with
      | error e => rw [hrest] at h; exact absurd h (by simp)
      | ok bs0 =>
        rw [hrest] at h
        simp at h
        subst h
        rcases List.mem_cons.mp hb with hb | hb
        · exact ⟨a, by simp, by rw [hb]; exact hfa⟩
        · rcases ih bs0 hrest b hb with ⟨a0, ha0, hfa0⟩
          exact ⟨a0, by simp [ha0], hfa0⟩

theorem mkPodDefaultEnvVar_ok_eq {n : String} {v : Option String}
    {s : Option EnvVarFromSecret} {fr : Option EnvVarFromField} {ev : PodDefaultEnvVar}
    (h : mkPodDefaultEnvVar n v s fr = Except.ok ev) :
    ev = { name := n, value := v, secret := s, fieldref := fr } := by
  unfold mkPodDefaultEnvVar at h
  split at h
  · exact (Except.ok.injEq _ _).mp h.symm ▸ by cases h; rfl
  · cases h

theorem dictGet_secret_name_ne_empty (dbn sn : String)
    (h : dictGet K8S_DATABASE_SECRET_NAME dbn = some sn) : sn ≠ "" := by
  unfold dictGet at h
  rcases Option.map_eq_some'.mp h with ⟨kv, hfind, hsnd⟩
  have hmem := List.mem_of_find?_eq_some hfind
  have hval : ∀ q ∈ K8S_DATABASE_SECRET_NAME, q.2 ≠ "" := by decide
  rw [← hsnd]
  exact hval kv hmem

/-- C1: batch combination (`ReconciledManifests.add`, the `__add__` of
`ReconciledManifests`) concatenates the five channels independently, is
associative, and has the all-empty batch as a two-sided identity. -/
theorem reconciledManifests_add_assoc_identity :
    (∀ A B C : ReconciledManifests, (A.add B).add C = A.add (B.add C)) ∧
    (∀ B : ReconciledManifests, ReconciledManifests.empty.add B = B) ∧
    (∀ B : ReconciledManifests, B.add ReconciledManifests.empty = B) ∧
    (∀ A B : ReconciledManifests,
      (A.add B).secrets = A.secrets ++ B.secrets ∧
      (A.add B).poddefaults = A.poddefaults ++ B.poddefaults ∧
      (A.add B).serviceaccounts = A.serviceaccounts ++ B.serviceaccounts ∧
      (A.add B).roles = A.roles ++ B.roles ∧
      (A.add B).role_bindings = A.role_bindings ++ B.role_bindings) := by
  refine ⟨?_, ?_, ?_, ?_⟩
  · intro A B C
    simp [ReconciledManifests.add]
  · intro B
    cases B
    simp [ReconciledManifests.add, ReconciledManifests.empty]
  · intro B
    cases B
    simp [ReconciledManifests.add, ReconciledManifests.empty]
  · intro A B
    exact ⟨rfl, rfl, rfl, rfl, rfl⟩

/-- C2: constructing a `PodDefaultEnvVar` succeeds exactly when exactly one of
the three alternatives — truthy literal value, secret-key reference, field
reference — is populated (validator modelled from the spec, see
`mkPodDefaultEnvVar`). -/
theorem podDefaultEnvVar_exactly_one_validation :
    ∀ (n : String) (v : Option String) (s : Option EnvVarFromSecret)
      (fr : Option EnvVarFromField),
      (∃ ev, mkPodDefaultEnvVar n v s fr = Except.ok ev) ↔
        (((truthy? v).isSome ∧ s = none ∧ fr = none) ∨
         (truthy? v = none ∧ s.isSome ∧ fr = none) ∨
         (truthy? v = none ∧ s = none ∧ fr.isSome)) := by
  intro n v s fr
  cases htv : truthy? v <;> cases s <;> cases fr <;>
    simp [mkPodDefaultEnvVar, htv]

theorem generate_tls_ok_namespace {p : String} {creds : Dict} {dbn : String}
    {i : K8sSecretManifestInfo}
    (h : generate_tls_secret_manifest p creds dbn = Except.ok (some i)) :
    i.namespace' = namespaceOf p := by
  unfold generate_tls_secret_manifest at h
  split at h
  · split at h
    · obtain ⟨tn, htn, h⟩ := bindE_ok_dest h
      injection h with h
      injection h with h
      subst h
      rfl
    · injection h with h; cases h
  · injection h with h; cases h

theorem generate_secret_ok_namespace {p : String} {creds : Dict} {dbn : String}
    {i : K8sSecretManifestInfo}
    (h : generate_secret_manifest p creds dbn = Except.ok i) :
    i.namespace' = namespaceOf p := by
  unfold generate_secret_manifest at h
  obtain ⟨sn, hsn, h⟩ := bindE_ok_dest h
  injection h with h
  subst h
  rfl

theorem generate_poddefault_ok_namespace {p : String} {creds : Dict} {dbn : String}
    {fs ts nm ds : Option String} {ann : Option Dict} {args : Option (List String)}
    {frs : Option Dict} {sel : Option String} {i : K8sPodDefaultManifestInfo}
    (h : generate_poddefault_manifest p creds dbn fs ts nm ds ann args frs sel = Except.ok i) :
    i.namespace' = namespaceOf p := by
  simp only [generate_poddefault_manifest] at h
  obtain ⟨e1, h1, h⟩ := bindE_ok_dest h
  obtain ⟨e2, h2, h⟩ := bindE_ok_dest h
  obtain ⟨n1, h3, h⟩ := bindE_ok_dest h
  obtain ⟨d1, h4, h⟩ := bindE_ok_dest h
  obtain ⟨s1, h5, h⟩ := bindE_ok_dest h
  injection h with h
  subst h
  rfl

/-- C4: every produced object — TLS Secret, credentials Secret, PodDefault —
carries no namespace when the profile is the wildcard `"*"`, and carries
exactly the profile string as namespace for any other profile. -/
theorem manifest_namespace_wildcard_scoping :
    ∀ (p : String) (creds : Dict) (dbn : String),
      (∀ i, generate_tls_secret_manifest p creds dbn = Except.ok (some i) →
        i.namespace' = if p = "*" then none else some p) ∧
      (∀ i, generate_secret_manifest p creds dbn = Except.ok i →
        i.namespace' = if p = "*" then none else some p) ∧
      (∀ (fs ts nm ds : Option String) (ann : Option Dict) (args : Option (List String))
          (frs : Option Dict) (sel : Option String) i,
        generate_poddefault_manifest p creds dbn fs ts nm ds ann args frs sel = Except.ok i →
        i.namespace' = if p = "*" then none else some p) := by
  intro p creds dbn
  refine ⟨?_, ?_, ?_⟩
  · intro i h
    exact generate_tls_ok_namespace h
  · intro i h
    exact generate_secret_ok_namespace h
  · intro fs ts nm ds ann args frs sel i h
    exact generate_poddefault_ok_namespace h


theorem manifest_namespace_wildcard_scoping_witness :
    (generate_tls_secret_manifest "team-a" [("tls-ca", "C")] "kafka" =
        Except.ok (some c4TlsInfo) ∧
      c4TlsInfo.namespace' = some "team-a") ∧
    (generate_secret_manifest "*" [] "mysql" = Except.ok c4SecretInfo ∧
      c4SecretInfo.namespace' = none) ∧
    (generate_poddefault_manifest "team-a" [("username", "u")] "opensearch" none none none none
        none none none none = Except.ok c4PodDefaultInfo ∧
      c4PodDefaultInfo.namespace' = some "team-a") :=
  ⟨⟨rfl, (manifest_namespace_wildcard_scoping "team-a" [("tls-ca", "C")] "kafka").1 c4TlsInfo rfl⟩,
   ⟨rfl, (manifest_namespace_wildcard_scoping "*" [] "mysql").2.1 c4SecretInfo rfl⟩,
   ⟨rfl, (manifest_namespace_wildcard_scoping "team-a" [("username", "u")] "opensearch").2.2
      none none none none none none none none c4PodDefaultInfo rfl⟩⟩

/-- C6: RoleBinding subject-namespace patching — every present
`subjects[].namespace` is rewritten to the placeholder token, subjects
without a namespace and RoleBindings without subjects are left unchanged,
and the emitted role-bindings channel holds exactly the patched RoleBinding
documents of the bundle. -/
theorem rolebinding_subject_namespace_patch :
    (∀ s : SparkSubject,
      (∀ v, s.namespace' = some v →
        (patchSubject s).namespace' = some NAMESPACE_PLACEHOLDER) ∧
      (s.namespace' = none → patchSubject s = s)) ∧
    (∀ rb : SparkDoc, rb.subjects = none → patchRolebindingSubjectNamespace rb = rb) ∧
    (∀ rb : SparkDoc, rb.subjects = some [] → patchRolebindingSubjectNamespace rb = rb) ∧
    (∀ (rb : SparkDoc) (subs : List SparkSubject), rb.subjects = some subs →
      (patchRolebindingSubjectNamespace rb).subjects = some (subs.map patchSubject)) ∧
    (∀ (p sa : String) (docs : List SparkDoc) (s1 s2 s3 s4 s5 : Bool) (b : ReconciledManifests),
      s4 = true →
      reconcile_spark_manifests (some p) s1 s2 s3 s4 s5 docs sa = Except.ok b →
      ∃ rbDocs, filterKindE "RoleBinding" docs = Except.ok rbDocs ∧
        b.role_bindings =
          rbDocs.map (fun d => Manifest.sparkDoc (patchRolebindingSubjectNamespace d))) := by
  refine ⟨?_, ?_, ?_, ?_, ?_⟩
  · intro s
    constructor
    · intro v hv
      unfold patchSubject
      rw [hv]
    · intro hv
      unfold patchSubject
      rw [hv]
  · intro rb hrb
    unfold patchRolebindingSubjectNamespace
    rw [hrb]
  · intro rb hrb
    unfold patchRolebindingSubjectNamespace
    rw [hrb]
  · intro rb subs hrb
    unfold patchRolebindingSubjectNamespace
    rw [hrb]
    cases subs with
    | nil => simpa using hrb
    | cons a l => rfl
  · intro p sa docs s1 s2 s3 s4 s5 b hs4 h
    subst hs4
    simp only [reconcile_spark_manifests] at h
    obtain ⟨secretDocs, hSec, h⟩ := bindE_ok_dest h
    obtain ⟨saDocs, hSA, h⟩ := bindE_ok_dest h
    obtain ⟨roleDocs, hRole, h⟩ := bindE_ok_dest h
    obtain ⟨rbDocs, hRB, h⟩ := bindE_ok_dest h
    obtain ⟨pipelinePD, hPipe, h⟩ := bindE_ok_dest h
    obtain ⟨notebookPD, hNote, h⟩ := bindE_ok_dest h
    injection h with h
    subst h
    refine ⟨rbDocs, ?_, by simp [List.map_map]⟩
    simpa using hRB

theorem rolebinding_subject_namespace_patch_witness :
    (patchSubject
        { kind := some "ServiceAccount", name := some "spark",
          namespace' := some "ns-x", extra := [] }).namespace' = some NAMESPACE_PLACEHOLDER ∧
    (∃ rbDocs, filterKindE "RoleBinding" [c6RoleBindingDoc] = Except.ok rbDocs ∧
      (okD (reconcile_spark_manifests (some "p") false false false true true
          [c6RoleBindingDoc] "sa")).role_bindings =
        rbDocs.map (fun d => Manifest.sparkDoc (patchRolebindingSubjectNamespace d))) :=
  ⟨(rolebinding_subject_namespace_patch.1 _).1 "ns-x" rfl,
   rolebinding_subject_namespace_patch.2.2.2.2 "p" "sa" [c6RoleBindingDoc]
     false false false true true _ rfl rfl⟩

/-- C8 counterexample: with the `opensearch-index-name` config present but
invalid (empty string) and NO opensearch relation at all, the status gate
returns plain active/idle — not the "invalid config" signal the claim
promises even for an absent relation. -/
theorem status_gate_counterexample :
    opensearchGetStatuses (some "") none [] = [activeIdle] ∧
    activeIdle ≠ invalidConfigParameters ["opensearch-index-name"] := by
  constructor
  · rfl
  · decide

/-- C8 (amended): config-error signals are gated on the relation existing:
with an invalid config value and at least one relation, exactly one
"invalid config" signal naming the field is returned and no missing-relation
signal (even when the relation carries no usable credentials); with an
invalid config and no relation, no signal at all (active/idle); with a valid
config and no usable relation, exactly one missing-relation signal and no
config signals.  Shown on the opensearch gate (empty index name is the
invalid case) and the kafka gate (rejected topic name is the invalid case). -/
theorem status_gate_amended :
    (∀ relations : List RelationData, relations ≠ [] →
      opensearchGetStatuses (some "") none relations =
        [invalidConfigParameters ["opensearch-index-name"]]) ∧
    (opensearchGetStatuses (some "") none [] = [activeIdle]) ∧
    (∀ (s : String) (relations : List RelationData), s ≠ "" →
      isBackendRelated relations = false →
      opensearchGetStatuses (some s) none relations = [missingIntegrationWithOpensearch]) ∧
    (∀ (acc : String → Bool) (t : String) (relations : List RelationData),
      t ≠ "" → acc t = false → relations ≠ [] →
      kafkaGetStatuses "app" acc (some t) none none relations =
        [invalidConfigParameters ["kafka-topic-name"]]) ∧
    (∀ (acc : String → Bool) (t : String) (relations : List RelationData),
      t ≠ "" → acc t = true → isBackendRelated relations = false →
      kafkaGetStatuses "app" acc (some t) none none relations =
        [missingIntegrationWithKafka]) := by
  refine ⟨?_, rfl, ?_, ?_, ?_⟩
  · intro relations h
    have hl : 0 < relations.length := List.length_pos.mpr h
    simp [opensearchGetStatuses, openSearchConfigValidate, nullify_empty_string,
      configErrorStatuses, hl]
  · intro s relations hs hrel
    simp [opensearchGetStatuses, openSearchConfigValidate, nullify_empty_string, hs, hrel,
      missingIntegrationWithOpensearch]
  · intro acc t relations ht hacc h
    have hl : 0 < relations.length := List.length_pos.mpr h
    simp [kafkaGetStatuses, kafkaConfigValidate, nullify_empty_string, ht, hacc,
      configErrorStatuses, hl]
  · intro acc t relations ht hacc hrel
    simp [kafkaGetStatuses, kafkaConfigValidate, nullify_empty_string, ht, hacc, hrel,
      missingIntegrationWithKafka]

theorem status_gate_amended_witness :
    (([{ username := none, password := none }] : List RelationData) ≠ [] ∧
      opensearchGetStatuses (some "") none [{ username := none, password := none }] =
        [invalidConfigParameters ["opensearch-index-name"]]) ∧
    (("idx" : String) ≠ "" ∧ isBackendRelated [] = false ∧
      opensearchGetStatuses (some "idx") none [] = [missingIntegrationWithOpensearch]) ∧
    (("topic!" : String) ≠ "" ∧ (fun _ => false : String → Bool) "topic!" = false ∧
      kafkaGetStatuses "app" (fun _ => false) (some "topic!") none none
          [{ username := none, password := none }] =
        [invalidConfigParameters ["kafka-topic-name"]]) :=
  ⟨⟨by decide,
    status_gate_amended.1 [{ username := none, password := none }] (by decide)⟩,
   ⟨by decide, by decide,
    status_gate_amended.2.2.1 "idx" [] (by decide) (by decide)⟩,
   ⟨by decide, rfl,
    status_gate_amended.2.2.2.1 (fun _ => false) "topic!"
      [{ username := none, password := none }] (by decide) rfl (by decide)⟩⟩

theorem generate_poddefault_from_secret_env {p : String} {creds : Dict} {dbn : String}
    {fs : String} (hfs : fs ≠ "") {ts nm ds : Option String} {ann : Option Dict}
    {args : Option (List String)} {sel : Option String} {info : K8sPodDefaultManifestInfo}
    (h : generate_poddefault_manifest p creds dbn (some fs) ts nm ds ann args none sel =
      Except.ok info) :
    info.env_vars = (format_credentials_data creds dbn).map (secretRefEnvVar fs) := by
  have hmap : mapME
      (fun kv => mkPodDefaultEnvVar kv.1 none
        (some { secret_name := fs, secret_key := kv.1, optional := false }) none)
      (format_credentials_data creds dbn) =
      Except.ok ((format_credentials_data creds dbn).map (secretRefEnvVar fs)) :=
    mapME_ok_of_fn_ok _ _ (fun kv => by simp [mkPodDefaultEnvVar, secretRefEnvVar, truthy?]) _
  simp only [generate_poddefault_manifest] at h
  rw [show truthy? (some fs) = some fs from by simp [truthy?, hfs]] at h
  simp only [hmap] at h
  cases hName : (match truthy? nm with
      | some n => Except.ok n
      | none => dictGetE K8S_DATABASE_PODDEFAULT_NAME dbn) with
  | error e => rw [hName] at h; cases h
  | ok pdName =>
  rw [hName] at h
  cases hDesc : (match truthy? ds with
      | some d => Except.ok d
      | none => dictGetE K8S_DATABASE_PODDEFAULT_DESC dbn) with
  | error e => rw [hDesc] at h; cases h
  | ok pdDesc =>
  rw [hDesc] at h
  cases hSel : (match truthy? sel with
      | some s => Except.ok s
      | none => dictGetE K8S_DATABASE_PODDEFAULT_SELECTOR_LABEL dbn) with
  | error e => rw [hSel] at h; cases h
  | ok pdSel =>
  rw [hSel] at h
  injection h with h
  subst h
  simp

theorem generate_poddefault_inline_env {p : String} {creds : Dict} {dbn : String}
    {ts nm ds : Option String} {ann : Option Dict} {args : Option (List String)}
    {sel : Option String} {info : K8sPodDefaultManifestInfo}
    (h : generate_poddefault_manifest p creds dbn none ts nm ds ann args none sel =
      Except.ok info) :
    ∀ ev ∈ info.env_vars, ∃ kv,
      kv ∈ (match truthy? (dictGet creds "tls-ca") with
            | some v => dictInsert creds "tls-ca" (stripNewlines v)
            | none => creds) ∧
      ev = { name := kv.1, value := some kv.2, secret := none, fieldref := none } := by
  simp only [generate_poddefault_manifest] at h
  cases hEnv1 : mapME (fun kv => mkPodDefaultEnvVar kv.1 (some kv.2) none none)
      (match truthy? (dictGet creds "tls-ca") with
       | some v => dictInsert creds "tls-ca" (stripNewlines v)
       | none => creds) with
  | error e => rw [show truthy? (none : Option String) = none from rfl, hEnv1] at h; cases h
  | ok envVars1 =>
  rw [show truthy? (none : Option String) = none from rfl, hEnv1] at h
  cases hName : (match truthy? nm with
      | some n => Except.ok n
      | none => dictGetE K8S_DATABASE_PODDEFAULT_NAME dbn) with
  | error e => rw [hName] at h; cases h
  | ok pdName =>
  rw [hName] at h
  cases hDesc : (match truthy? ds with
      | some d => Except.ok d
      | none => dictGetE K8S_DATABASE_PODDEFAULT_DESC dbn) with
  | error e => rw [hDesc] at h; cases h
  | ok pdDesc =>
  rw [hDesc] at h
  cases hSel : (match truthy? sel with
      | some s => Except.ok s
      | none => dictGetE K8S_DATABASE_PODDEFAULT_SELECTOR_LABEL dbn) with
  | error e => rw [hSel] at h; cases h
  | ok pdSel =>
  rw [hSel] at h
  injection h with h
  subst h
  intro ev hev
  simp at hev
  rcases mapME_mem _ _ _ hEnv1 ev hev with ⟨kv, hkv, hmk⟩
  exact ⟨kv, hkv, mkPodDefaultEnvVar_ok_eq hmk⟩

theorem dictGetE_ok {d : Dict} {k v : String} (h : dictGetE d k = Except.ok v) :
    dictGet d k = some v := by
  unfold dictGetE at h
  cases hg : dictGet d k with
  | none => rw [hg] at h; cases h
  | some w => rw [hg] at h; injection h with h; rw [h]

theorem generate_secret_ok_eq {p : String} {creds : Dict} {dbn : String}
    {si : K8sSecretManifestInfo} (h : generate_secret_manifest p creds dbn = Except.ok si) :
    ∃ sn, dictGetE K8S_DATABASE_SECRET_NAME dbn = Except.ok sn ∧
      si = { name := sn, namespace' := namespaceOf p, labels := none
             data := format_credentials_data creds dbn } := by
  unfold generate_secret_manifest at h
  cases hSn : dictGetE K8S_DATABASE_SECRET_NAME dbn with
  | error e => rw [hSn] at h; cases h
  | ok sn =>
    rw [hSn] at h
    injection h with h
    exact ⟨sn, rfl, h.symm⟩

theorem reconcile_db_both_shape {p : String} {creds0 : Dict} {dbn : String}
    {b : ReconciledManifests}
    (h : reconcile_database_manifests (some p) true true creds0 dbn = Except.ok b) :
    ∃ (work : Dict) (sn : String) (tlsList : List Manifest) (si : K8sSecretManifestInfo)
      (pd : K8sPodDefaultManifestInfo),
      dictGet K8S_DATABASE_SECRET_NAME dbn = some sn ∧
      b = { secrets := tlsList ++ [Manifest.secret si]
            poddefaults := [Manifest.podDefault pd]
            serviceaccounts := [], roles := [], role_bindings := [] } ∧
      si = { name := sn, namespace' := namespaceOf p, labels := none
             data := format_credentials_data work dbn } ∧
      pd.env_vars = (format_credentials_data work dbn).map (secretRefEnvVar sn) ∧
      (truthy? (dictGet (dictPop creds0 "data") "tls-ca") = none →
        work = dictPop creds0 "data" ∧ tlsList = []) := by
  simp only [reconcile_database_manifests] at h
  obtain ⟨sp, hsp, h⟩ := bindE_ok_dest h
  obtain ⟨pds, hpds, h⟩ := bindE_ok_dest h
  injection h with h
  subst h
  rw [cond_true] at hsp hpds
  obtain ⟨tlsOpt, hTls, hsp⟩ := bindE_ok_dest hsp
  cases tlsOpt with
  | none =>
    obtain ⟨dbSecret, hSec, hsp⟩ := bindE_ok_dest hsp
    injection hsp with hsp
    subst hsp
    dsimp only at hpds
    rw [cond_false, cond_true, cond_false] at hpds
    rw [bindE_ok] at hpds
    obtain ⟨fsv, hfsv, hpds⟩ := bindE_ok_dest hpds
    obtain ⟨sn, hSn, hfs2⟩ := bindE_ok_dest hfsv
    injection hfs2 with hfs2
    subst hfs2
    rw [bindE_ok] at hpds
    obtain ⟨pd, hPd, hpds⟩ := bindE_ok_dest hpds
    injection hpds with hpds
    subst hpds
    have hsn' : dictGet K8S_DATABASE_SECRET_NAME dbn = some sn := dictGetE_ok hSn
    have hfs : sn ≠ "" := dictGet_secret_name_ne_empty dbn sn hsn'
    rcases generate_secret_ok_eq hSec with ⟨sn2, hSn2, hsi⟩
    rw [hSn] at hSn2
    injection hSn2 with hSn2
    subst hSn2
    exact ⟨dictPop creds0 "data", sn, [], dbSecret, pd, hsn', rfl, hsi,
      generate_poddefault_from_secret_env hfs hPd, fun _ => ⟨rfl, rfl⟩⟩
  | some tlsInfo =>
    obtain ⟨cp, hCp, hsp⟩ := bindE_ok_dest hsp
    obtain ⟨dbSecret, hSec, hsp⟩ := bindE_ok_dest hsp
    injection hsp with hsp
    subst hsp
    dsimp only at hpds
    rw [cond_true, cond_true, cond_true] at hpds
    rw [hCp] at hpds
    rw [bindE_ok] at hpds
    obtain ⟨creds2, hc2, hpds⟩ := bindE_ok_dest hpds
    injection hc2 with hc2
    subst hc2
    obtain ⟨fsv, hfsv, hpds⟩ := bindE_ok_dest hpds
    obtain ⟨sn, hSn, hfs2⟩ := bindE_ok_dest hfsv
    injection hfs2 with hfs2
    subst hfs2
    obtain ⟨tnv, htnv, hpds⟩ := bindE_ok_dest hpds
    obtain ⟨tn, hTn, htn2⟩ := bindE_ok_dest htnv
    injection htn2 with htn2
    subst htn2
    obtain ⟨pd, hPd, hpds⟩ := bindE_ok_dest hpds
    injection hpds with hpds
    subst hpds
    have hsn' : dictGet K8S_DATABASE_SECRET_NAME dbn = some sn := dictGetE_ok hSn
    have hfs : sn ≠ "" := dictGet_secret_name_ne_empty dbn sn hsn'
    rcases generate_secret_ok_eq hSec with ⟨sn2, hSn2, hsi⟩
    rw [hSn] at hSn2
    injection hSn2 with hSn2
    subst hSn2
    refine ⟨dictPop (dictInsert (dictPop creds0 "data") "ca_cert_path" cp) "tls-ca", sn,
      [Manifest.secret tlsInfo], dbSecret, pd, hsn', rfl, hsi,
      generate_poddefault_from_secret_env hfs hPd, ?_⟩
    intro hn
    unfold generate_tls_secret_manifest at hTls
    rw [hn] at hTls
    cases hTls

/-- C3: secret indirection — with both the secrets and poddefaults targets
active, every env var of the generated database PodDefault is a secret-key
reference into the produced credentials Secret (matching name, key present
in its data), never an inline literal and never a field reference; with only
the poddefaults target active, every env var is an inline literal value. -/
theorem database_poddefault_secret_indirection :
    ∀ (p : String) (creds : Dict) (dbn : String) (b : ReconciledManifests),
      (reconcile_database_manifests (some p) true true creds dbn = Except.ok b →
        ∀ info, Manifest.podDefault info ∈ b.poddefaults →
          ∀ ev ∈ info.env_vars,
            ev.value = none ∧ ev.fieldref = none ∧
              ∃ r, ev.secret = some r ∧
                ∃ si, Manifest.secret si ∈ b.secrets ∧ si.name = r.secret_name ∧
                  (dictGet si.data r.secret_key).isSome) ∧
      (reconcile_database_manifests (some p) false true creds dbn = Except.ok b →
        ∀ info, Manifest.podDefault info ∈ b.poddefaults →
          ∀ ev ∈ info.env_vars, ev.secret = none ∧ ev.fieldref = none ∧ ev.value.isSome) := by
  intro p creds dbn b
  constructor
  · intro h info hinfo ev hev
    rcases reconcile_db_both_shape h with ⟨work, sn, tlsList, si, pd, hsn, hb, hsi, henv, _⟩
    subst hb
    subst hsi
    simp only [List.mem_singleton] at hinfo
    injection hinfo with hinfo
    subst hinfo
    rw [henv] at hev
    rcases List.mem_map.mp hev with ⟨kv, hkv, hevv⟩
    subst hevv
    refine ⟨rfl, rfl, { secret_name := sn, secret_key := kv.1, optional := false }, rfl,
      { name := sn, namespace' := namespaceOf p, labels := none,
        data := format_credentials_data work dbn }, by simp, rfl, ?_⟩
    have hfind : (List.find? (fun q => q.1 = kv.1) (format_credentials_data work dbn)).isSome :=
      List.find?_isSome.mpr ⟨kv, hkv, by simp⟩
    obtain ⟨w, hw⟩ := Option.isSome_iff_exists.mp hfind
    simp [secretRefEnvVar, dictGet, hw]
  · intro h info hinfo ev hev
    simp only [reconcile_database_manifests] at h
    rw [cond_false, bindE_ok] at h
    dsimp only at h
    rw [cond_true, cond_false, cond_false, cond_false, bindE_ok, bindE_ok, bindE_ok] at h
    obtain ⟨pds, hPds, h⟩ := bindE_ok_dest h
    obtain ⟨pd, hPd, hpp⟩ := bindE_ok_dest hPds
    injection hpp with hpp
    subst hpp
    injection h with h
    subst h
    simp only [List.mem_singleton] at hinfo
    injection hinfo with hinfo
    subst hinfo
    rcases generate_poddefault_inline_env hPd ev hev with ⟨kv, _, hevv⟩
    subst hevv
    simp

theorem database_poddefault_secret_indirection_witness :
    (reconcile_database_manifests (some "ml-team") true true
        [("username", "u"), ("password", "p")] "opensearch" =
      Except.ok (okD (reconcile_database_manifests (some "ml-team") true true
        [("username", "u"), ("password", "p")] "opensearch")) ∧
      (∀ info, Manifest.podDefault info ∈
          (okD (reconcile_database_manifests (some "ml-team") true true
            [("username", "u"), ("password", "p")] "opensearch")).poddefaults →
        ∀ ev ∈ info.env_vars,
          ev.value = none ∧ ev.fieldref = none ∧
            ∃ r, ev.secret = some r ∧
              ∃ si, Manifest.secret si ∈
                  (okD (reconcile_database_manifests (some "ml-team") true true
                    [("username", "u"), ("password", "p")] "opensearch")).secrets ∧
                si.name = r.secret_name ∧ (dictGet si.data r.secret_key).isSome)) ∧
    (reconcile_database_manifests (some "ml-team") false true [("username", "u")] "opensearch" =
      Except.ok (okD (reconcile_database_manifests (some "ml-team") false true
        [("username", "u")] "opensearch")) ∧
      (∀ info, Manifest.podDefault info ∈
          (okD (reconcile_database_manifests (some "ml-team") false true
            [("username", "u")] "opensearch")).poddefaults →
        ∀ ev ∈ info.env_vars, ev.secret = none ∧ ev.fieldref = none ∧ ev.value.isSome)) :=
  ⟨⟨rfl, fun info hinfo ev hev =>
      (database_poddefault_secret_indirection "ml-team" [("username", "u"), ("password", "p")]
        "opensearch" _).1 rfl info hinfo ev hev⟩,
   ⟨rfl, fun info hinfo ev hev =>
      (database_poddefault_secret_indirection "ml-team" [("username", "u")]
        "opensearch" _).2 rfl info hinfo ev hev⟩⟩

theorem string_append_cancel_left {a b c : String} (h : a ++ b = a ++ c) : b = c := by
  have hd : a.data ++ b.data = a.data ++ c.data := by
    have := congrArg String.data h
    simpa [String.data_append] using this
  have := List.append_cancel_left hd
  cases b
  cases c
  exact congrArg String.mk this

theorem dictGet_dictPop_ne {d : Dict} {k k' : String} (h : k ≠ k') :
    dictGet (dictPop d k') k = dictGet d k := by
  induction d with
  | nil => rfl
  | cons kv rest ih =>
    by_cases hk : kv.1 = k'
    · have hkne : ¬ (kv.1 = k) := fun e => h (by rw [← e, hk])
      rw [show dictPop (kv :: rest) k' = dictPop rest k' from by
        simp [dictPop, List.filter_cons, hk]]
      rw [ih]
      rw [show dictGet (kv :: rest) k = dictGet rest k from by
        simp [dictGet, List.find?_cons, hkne]]
    · rw [show dictPop (kv :: rest) k' = kv :: dictPop rest k' from by
        simp [dictPop, List.filter_cons, hk]]
      by_cases hkk : kv.1 = k
      · rw [show dictGet (kv :: dictPop rest k') k = some kv.2 from by
          simp [dictGet, List.find?_cons, hkk]]
        rw [show dictGet (kv :: rest) k = some kv.2 from by
          simp [dictGet, List.find?_cons, hkk]]
      · rw [show dictGet (kv :: dictPop rest k') k = dictGet (dictPop rest k') k from by
          simp [dictGet, List.find?_cons, hkk]]
        rw [ih]
        rw [show dictGet (kv :: rest) k = dictGet rest k from by
          simp [dictGet, List.find?_cons, hkk]]

theorem format_credentials_key_shape {work : Dict} {dbn : String} {x : String × String}
    (hx : x ∈ format_credentials_data work dbn) :
    ∃ kv ∈ work, kv.2 ≠ "" ∧ x.1 = strToUpper dbn ++ "_" ++ strToUpper kv.1 := by
  unfold format_credentials_data at hx
  rcases List.mem_filterMap.mp hx with ⟨kv, hkv, hf⟩
  by_cases hv : kv.2 = ""
  · rw [if_neg (by simpa using hv)] at hf
    cases hf
  · rw [if_pos (by simpa using hv)] at hf
    injection hf with hf
    exact ⟨kv, hkv, hv, by rw [← hf]⟩

theorem format_credentials_no_folded_key {work : Dict} {dbn key : String}
    (hkeys : ∀ kv ∈ work, strToUpper kv.1 = key → kv.2 = "") :
    dictGet (format_credentials_data work dbn) (strToUpper dbn ++ "_" ++ key) = none := by
  unfold dictGet
  rw [Option.map_eq_none']
  rw [List.find?_eq_none]
  intro x hx hpred
  rcases format_credentials_key_shape hx with ⟨kv, hkv, hv, hkey⟩
  have hx1 : x.1 = strToUpper dbn ++ "_" ++ key := by simpa using hpred
  rw [hkey] at hx1
  have : strToUpper kv.1 = key := string_append_cancel_left hx1
  exact hv (hkeys kv hkv this)

/-- C10: credential entries whose value is the empty string are silently
omitted — `format_credentials_data` keeps only truthy values, so they appear
neither in the data of the credentials Secret nor among the secret-reference env
vars of the PodDefault; in particular `tls-ca: ""` yields no
`<DB>_TLS-CA`-keyed entry anywhere. -/
theorem empty_credentials_omitted :
    (∀ (data : Dict) (dbn : String),
      format_credentials_data data dbn =
        format_credentials_data (data.filter (fun kv => kv.2 ≠ "")) dbn) ∧
    (∀ (p dbn : String) (creds : Dict) (b : ReconciledManifests),
      dictGet creds "tls-ca" = some "" →
      (∀ kv ∈ creds, strToUpper kv.1 = "TLS-CA" → kv.2 = "") →
      reconcile_database_manifests (some p) true true creds dbn = Except.ok b →
      (∀ si, Manifest.secret si ∈ b.secrets →
        dictGet si.data (strToUpper dbn ++ "_" ++ "TLS-CA") = none) ∧
      (∀ info, Manifest.podDefault info ∈ b.poddefaults →
        ∀ ev ∈ info.env_vars, ev.name ≠ strToUpper dbn ++ "_" ++ "TLS-CA")) := by
  constructor
  · intro data dbn
    induction data with
    | nil => rfl
    | cons kv rest ih =>
      by_cases hv : kv.2 = ""
      · simp [format_credentials_data, List.filter_cons, hv] at ih ⊢
        exact ih
      · simp [format_credentials_data, List.filter_cons, hv] at ih ⊢
        exact ih
  · intro p dbn creds b htls hkeys h
    rcases reconcile_db_both_shape h with ⟨work, sn, tlsList, si, pd, hsn, hb, hsi, henv, himp⟩
    have htls1 : truthy? (dictGet (dictPop creds "data") "tls-ca") = none := by
      rw [dictGet_dictPop_ne (by decide), htls]
      rfl
    rcases himp htls1 with ⟨hwork, htlsList⟩
    subst hwork
    subst hb
    subst hsi
    subst htlsList
    have hkeys1 : ∀ kv ∈ dictPop creds "data", strToUpper kv.1 = "TLS-CA" → kv.2 = "" :=
      fun kv hm => hkeys kv (List.mem_of_mem_filter hm)
    constructor
    · intro si' hmem
      simp only [List.nil_append, List.mem_singleton] at hmem
      injection hmem with hmem
      subst hmem
      exact format_credentials_no_folded_key hkeys1
    · intro info hinfo ev hev
      simp only [List.mem_singleton] at hinfo
      injection hinfo with hinfo
      subst hinfo
      rw [henv] at hev
      rcases List.mem_map.mp hev with ⟨kv, hkv, hevv⟩
      subst hevv
      rcases format_credentials_key_shape hkv with ⟨kv0, hkv0, hv0, hkey0⟩
      intro hcontra
      have : kv.1 = strToUpper dbn ++ "_" ++ "TLS-CA" := hcontra
      rw [hkey0] at this
      exact hv0 (hkeys1 kv0 hkv0 (string_append_cancel_left this))

theorem empty_credentials_omitted_witness :
    dictGet [("username", "u"), ("tls-ca", "")] "tls-ca" = some "" ∧
    reconcile_database_manifests (some "p") true true
        [("username", "u"), ("tls-ca", "")] "opensearch" =
      Except.ok (okD (reconcile_database_manifests (some "p") true true
        [("username", "u"), ("tls-ca", "")] "opensearch")) ∧
    (∀ si, Manifest.secret si ∈
        (okD (reconcile_database_manifests (some "p") true true
          [("username", "u"), ("tls-ca", "")] "opensearch")).secrets →
      dictGet si.data (strToUpper "opensearch" ++ "_" ++ "TLS-CA") = none) :=
  ⟨by decide, rfl,
    (empty_credentials_omitted.2 "p" "opensearch" [("username", "u"), ("tls-ca", "")] _
      (by decide) (by decide) rfl).1⟩

theorem truthy?_eq_some {o : Option String} {v : String} (h : truthy? o = some v) :
    o = some v ∧ v ≠ "" := by
  cases o with
  | none => cases h
  | some s =>
    by_cases hs : s = ""
    · rw [show truthy? (some s) = none from by simp [truthy?, hs]] at h
      cases h
    · rw [show truthy? (some s) = some s from by simp [truthy?, hs]] at h
      injection h with h
      subst h
      exact ⟨rfl, hs⟩

theorem generate_tls_none_of_suppressed {p : String} {creds : Dict} {dbn : String}
    (h : dictGet creds "tls-ca" = none ∨ dictGet creds "tls-ca" = some "" ∨
      dictGet creds "tls-ca" = some "disabled") :
    generate_tls_secret_manifest p creds dbn = Except.ok none := by
  unfold generate_tls_secret_manifest
  rcases h with h | h | h <;> rw [h] <;> simp [truthy?]

theorem generate_tls_some_imp {p : String} {creds : Dict} {dbn : String}
    {i : K8sSecretManifestInfo}
    (h : generate_tls_secret_manifest p creds dbn = Except.ok (some i)) :
    ∃ ca, dictGet creds "tls-ca" = some ca ∧ ca ≠ "" ∧ ca ≠ "disabled" := by
  unfold generate_tls_secret_manifest at h
  split at h
  case h_2 => injection h with h; cases h
  case h_1 ca hca =>
    split at h
    case isFalse => injection h with h; cases h
    case isTrue hdis =>
      rcases truthy?_eq_some hca with ⟨hget, hne⟩
      exact ⟨ca, hget, hne, hdis⟩

theorem dictInsert_mem {d : Dict} {k v : String} {kv : String × String}
    (h : kv ∈ dictInsert d k v) : kv ∈ d ∨ kv.1 = k := by
  unfold dictInsert at h
  split at h
  · rcases List.mem_map.mp h with ⟨orig, ho, he⟩
    by_cases hk : orig.1 = k
    · rw [if_pos hk] at he
      right
      rw [← he]
    · rw [if_neg hk] at he
      left
      rw [← he]
      exact ho
  · rcases List.mem_append.mp h with h | h
    · exact Or.inl h
    · right
      simp at h
      rw [h]

theorem generate_poddefault_ok_fields {p : String} {creds : Dict} {dbn : String}
    {fs ts nm ds : Option String} {ann : Option Dict} {args : Option (List String)}
    {frs : Option Dict} {sel : Option String} {info : K8sPodDefaultManifestInfo}
    (h : generate_poddefault_manifest p creds dbn fs ts nm ds ann args frs sel =
      Except.ok info) :
    info.args = args ∧
    (truthy? ts = none → info.secret_volumes = none) ∧
    (∀ t, truthy? ts = some t → info.secret_volumes =
      some [{ name := K8S_TLS_SECRET_VOLUME, secret_name := t
              mount_path := K8S_TLS_MOUNTPATH }]) ∧
    (ann = none → info.annotations = none) ∧
    (∀ l, ann = some l → info.annotations =
      (if l = [] then none else some (l.map fun kv => { key := kv.1, value := kv.2 }))) := by
  simp only [generate_poddefault_manifest] at h
  obtain ⟨e1, h1, h⟩ := bindE_ok_dest h
  obtain ⟨e2, h2, h⟩ := bindE_ok_dest h
  obtain ⟨n1, h3, h⟩ := bindE_ok_dest h
  obtain ⟨d1, h4, h⟩ := bindE_ok_dest h
  obtain ⟨s1, h5, h⟩ := bindE_ok_dest h
  injection h with h
  subst h
  refine ⟨rfl, ?_, ?_, ?_, ?_⟩
  · intro hts
    simp [hts]
  · intro t hts
    simp [hts]
  · intro hann
    subst hann
    rfl
  · intro l hann
    subst hann
    rfl

/-- C7 counterexample: a credential map that itself carries a `ca_cert_path`
key defeats the claim — with `tls-ca` absent and only the poddefaults target
active, the generated PodDefault inlines an env var named `ca_cert_path`. -/
theorem tls_suppression_counterexample :
    dictGet [("ca_cert_path", "x")] "tls-ca" = none ∧
    reconcile_database_manifests (some "p") false true [("ca_cert_path", "x")] "opensearch" =
      Except.ok
        { secrets := []
          poddefaults := [Manifest.podDefault
            { name := "opensearch-pod-default", namespace' := some "p"
              desc := "OpenSearch Credentials", selector_name := "access-opensearch"
              env_vars := [{ name := "ca_cert_path", value := some "x"
                             secret := none, fieldref := none }]
              secret_volumes := none, annotations := none, args := none }]
          serviceaccounts := [], roles := [], role_bindings := [] } :=
  ⟨rfl, rfl⟩

/-- C7 (amended): a TLS Secret is produced only when `tls-ca` is present,
non-empty and not `"disabled"`; conversely, when `tls-ca` is absent, empty or
`"disabled"` — and the credential map carries no key of its own that
uppercases to `CA_CERT_PATH` — the batch contains no TLS Secret (the secrets
channel is exactly the one credentials Secret when that target is active),
and the PodDefault has no secret volume and no `ca_cert_path`-marker env var
(the uppercased `<DB>_CA_CERT_PATH` key in secret-reference mode, the literal
`ca_cert_path` name in inline mode). -/
theorem tls_suppression_amended :
    ∀ (p dbn : String) (creds : Dict),
      (∀ i, generate_tls_secret_manifest p creds dbn = Except.ok (some i) →
        ∃ ca, dictGet creds "tls-ca" = some ca ∧ ca ≠ "" ∧ ca ≠ "disabled") ∧
      ((dictGet creds "tls-ca" = none ∨ dictGet creds "tls-ca" = some "" ∨
          dictGet creds "tls-ca" = some "disabled") →
        (∀ kv ∈ creds, strToUpper kv.1 ≠ "CA_CERT_PATH") →
        ∀ (sR pR : Bool) (b : ReconciledManifests),
          reconcile_database_manifests (some p) sR pR creds dbn = Except.ok b →
          (sR = true → ∃ si, b.secrets = [Manifest.secret si]) ∧
          (sR = false → b.secrets = []) ∧
          (∀ info, Manifest.podDefault info ∈ b.poddefaults →
            info.secret_volumes = none ∧
            (sR = true → ∀ ev ∈ info.env_vars,
              ev.name ≠ strToUpper dbn ++ "_" ++ "CA_CERT_PATH") ∧
            (sR = false → ∀ ev ∈ info.env_vars, ev.name ≠ "ca_cert_path"))) := by
  intro p dbn creds
  constructor
  · intro i h
    exact generate_tls_some_imp h
  · intro hsupp hkeys sR pR b h
    have hsupp1 : dictGet (dictPop creds "data") "tls-ca" = none ∨
        dictGet (dictPop creds "data") "tls-ca" = some "" ∨
        dictGet (dictPop creds "data") "tls-ca" = some "disabled" := by
      rw [dictGet_dictPop_ne (by decide)]
      exact hsupp
    have hkeys1 : ∀ kv ∈ dictPop creds "data", strToUpper kv.1 ≠ "CA_CERT_PATH" :=
      fun kv hm => hkeys kv (List.mem_of_mem_filter hm)
    simp only [reconcile_database_manifests] at h
    cases sR with
    | true =>
      rw [cond_true, generate_tls_none_of_suppressed hsupp1, bindE_ok] at h
      obtain ⟨sp, hsp, h⟩ := bindE_ok_dest h
      obtain ⟨dbSecret, hSec, hsp2⟩ := bindE_ok_dest hsp
      injection hsp2 with hsp2
      subst hsp2
      dsimp only at h
      cases pR with
      | false =>
        rw [cond_false, bindE_ok] at h
        injection h with h
        subst h
        refine ⟨fun _ => ⟨dbSecret, rfl⟩, fun hco => absurd hco (by decide), ?_⟩
        intro info hinfo
        simp at hinfo
      | true =>
        simp only [cond_true, cond_false, bindE_ok] at h
        obtain ⟨pds, hPds, h⟩ := bindE_ok_dest h
        obtain ⟨fsv, hfsv, hPds⟩ := bindE_ok_dest hPds
        obtain ⟨sn, hSn, hfsv2⟩ := bindE_ok_dest hfsv
        injection hfsv2 with hfsv2
        subst hfsv2
        obtain ⟨pd, hPd, hPds2⟩ := bindE_ok_dest hPds
        injection hPds2 with hPds2
        subst hPds2
        injection h with h
        subst h
        have hsn' : dictGet K8S_DATABASE_SECRET_NAME dbn = some sn := dictGetE_ok hSn
        have hfs : sn ≠ "" := dictGet_secret_name_ne_empty dbn sn hsn'
        have henv := generate_poddefault_from_secret_env hfs hPd
        rcases generate_poddefault_ok_fields hPd with ⟨_, hvol, _, _, _⟩
        refine ⟨fun _ => ⟨dbSecret, rfl⟩, fun hco => absurd hco (by decide), ?_⟩
        intro info hinfo
        simp only [List.mem_singleton] at hinfo
        injection hinfo with hinfo
        subst hinfo
        refine ⟨hvol rfl, fun _ ev hev => ?_, fun hco => absurd hco (by decide)⟩
        rw [henv] at hev
        rcases List.mem_map.mp hev with ⟨kv, hkv, hevv⟩
        subst hevv
        rcases format_credentials_key_shape hkv with ⟨kv0, hkv0, hv0, hkey0⟩
        intro hcontra
        have : kv.1 = strToUpper dbn ++ "_" ++ "CA_CERT_PATH" := hcontra
        rw [hkey0] at this
        exact hkeys1 kv0 hkv0 (string_append_cancel_left this)
    | false =>
      rw [cond_false, bindE_ok] at h
      dsimp only at h
      cases pR with
      | false =>
        rw [cond_false, bindE_ok] at h
        injection h with h
        subst h
        exact ⟨fun hco => absurd hco (by decide), fun _ => rfl, fun info hinfo => by simp at hinfo⟩
      | true =>
        simp only [cond_true, cond_false, bindE_ok] at h
        obtain ⟨pds, hPds, h⟩ := bindE_ok_dest h
        obtain ⟨pd, hPd, hPds2⟩ := bindE_ok_dest hPds
        injection hPds2 with hPds2
        subst hPds2
        injection h with h
        subst h
        rcases generate_poddefault_ok_fields hPd with ⟨_, hvol, _, _, _⟩
        refine ⟨fun hco => absurd hco (by decide), fun _ => rfl, ?_⟩
        intro info hinfo
        simp only [List.mem_singleton] at hinfo
        injection hinfo with hinfo
        subst hinfo
        refine ⟨hvol rfl, fun hco => absurd hco (by decide), fun _ ev hev => ?_⟩
        rcases generate_poddefault_inline_env hPd ev hev with ⟨kv, hkv, hevv⟩
        subst hevv
        intro hcontra
        have hname : kv.1 = "ca_cert_path" := hcontra
        have hfold : strToUpper kv.1 = "CA_CERT_PATH" := by rw [hname]; decide
        have hmem : kv ∈ dictPop creds "data" ∨ kv.1 = "tls-ca" := by
          revert hkv
          split
          · intro hkv
            exact dictInsert_mem hkv
          · intro hkv
            exact Or.inl hkv
        rcases hmem with hmem | hmem
        · exact hkeys1 kv hmem hfold
        · rw [hmem] at hfold
          exact absurd hfold (by decide)

theorem tls_suppression_amended_witness :
    dictGet [("username", "u"), ("tls-ca", "disabled")] "tls-ca" = some "disabled" ∧
    (∀ kv ∈ ([("username", "u"), ("tls-ca", "disabled")] : Dict),
      strToUpper kv.1 ≠ "CA_CERT_PATH") ∧
    reconcile_database_manifests (some "p") true true
        [("username", "u"), ("tls-ca", "disabled")] "kafka" =
      Except.ok (okD (reconcile_database_manifests (some "p") true true
        [("username", "u"), ("tls-ca", "disabled")] "kafka")) ∧
    (∃ si, (okD (reconcile_database_manifests (some "p") true true
        [("username", "u"), ("tls-ca", "disabled")] "kafka")).secrets =
      [Manifest.secret si]) :=
  ⟨rfl, by decide, rfl,
    ((tls_suppression_amended "p" "kafka" [("username", "u"), ("tls-ca", "disabled")]).2
      (Or.inr (Or.inr rfl)) (by decide) true true _ rfl).1 rfl⟩

theorem generate_spark_poddefault_ok {p sa : String} {nmv dsv selv : String}
    (hnm : nmv ≠ "") (hds : dsv ≠ "") (hsel : selv ≠ "") {ann : Option Dict}
    {args : Option (List String)} {info : K8sPodDefaultManifestInfo}
    (h : generate_poddefault_manifest p [("SPARK_SERVICE_ACCOUNT", sa)] "spark" none none
      (some nmv) (some dsv) ann args (some sparkFieldrefs) (some selv) = Except.ok info) :
    sa ≠ "" ∧ info.name = nmv ∧ info.namespace' = namespaceOf p ∧ info.desc = dsv ∧
    info.selector_name = selv ∧
    info.env_vars = [{ name := "SPARK_SERVICE_ACCOUNT", value := some sa
                       secret := none, fieldref := none },
                     { name := "SPARK_NAMESPACE", value := none, secret := none
                       fieldref := some { field_path := "metadata.namespace" } }] ∧
    info.secret_volumes = none ∧ info.args = args ∧
    (ann = none → info.annotations = none) ∧
    (∀ l, ann = some l → info.annotations =
      (if l = [] then none else some (l.map fun kv => { key := kv.1, value := kv.2 }))) := by
  by_cases hsa : sa = ""
  · subst hsa
    simp [generate_poddefault_manifest, mapME, mkPodDefaultEnvVar, truthy?, dictGet,
      List.find?] at h
  · simp [generate_poddefault_manifest, mapME, mkPodDefaultEnvVar, truthy?, dictGet,
      sparkFieldrefs, hsa, hnm, hds, hsel, List.find?] at h
    subst h
    refine ⟨hsa, rfl, rfl, rfl, rfl, rfl, rfl, rfl, ?_, ?_⟩
    · intro hann
      subst hann
      rfl
    · intro l hann
      subst hann
      rfl

/-- C5 counterexample: with an empty service-account name the Spark renderer
raises (PodDefaultEnvVar validation) instead of returning a batch with the
two PodDefaults, although the poddefaults target is active. -/
theorem spark_poddefaults_counterexample :
    reconcile_spark_manifests (some "p") false false false false true [] "" =
      Except.error "Exactly one of value, secret or fieldref must be provided" := rfl

/-- C5 (amended): whenever the Spark renderer returns a batch — which requires
a non-empty service-account name, since both PodDefaults are generated before
the target gate — the poddefaults channel holds exactly the pipeline and the
notebook PodDefault when the target is active (each with the
SPARK_SERVICE_ACCOUNT env var and the namespace field-reference env var, the
notebook variant additionally with the fixed CLI argument list and the two
istio sidecar-exclusion annotations naming ports 37371 and 6060), and is
empty when the target is inactive. -/
theorem spark_two_poddefaults_amended :
    sparkNotebookAnnotations =
      [("traffic.sidecar.istio.io/excludeInboundPorts", "37371,6060"),
       ("traffic.sidecar.istio.io/excludeOutboundPorts", "37371,6060")] ∧
    ∀ (p sa : String) (s1 s2 s3 s4 s5 : Bool) (docs : List SparkDoc)
      (b : ReconciledManifests),
      reconcile_spark_manifests (some p) s1 s2 s3 s4 s5 docs sa = Except.ok b →
      sa ≠ "" ∧
      (s5 = true → ∃ infoP infoN,
        b.poddefaults = [Manifest.podDefault infoP, Manifest.podDefault infoN] ∧
        infoP.name = SPARK_PIPELINE_PODDEFAULT_NAME ∧
        infoN.name = SPARK_NOTEBOOK_PODDEFAULT_NAME ∧
        infoP.env_vars = [{ name := "SPARK_SERVICE_ACCOUNT", value := some sa
                            secret := none, fieldref := none },
                          { name := "SPARK_NAMESPACE", value := none, secret := none
                            fieldref := some { field_path := "metadata.namespace" } }] ∧
        infoN.env_vars = infoP.env_vars ∧
        infoP.annotations = none ∧ infoP.args = none ∧
        infoN.args = some sparkNotebookArgs ∧
        infoN.annotations =
          some (sparkNotebookAnnotations.map fun kv => { key := kv.1, value := kv.2 })) ∧
      (s5 = false → b.poddefaults = []) := by
  refine ⟨by decide, ?_⟩
  intro p sa s1 s2 s3 s4 s5 docs b h
  simp only [reconcile_spark_manifests] at h
  obtain ⟨secretDocs, hSec, h⟩ := bindE_ok_dest h
  obtain ⟨saDocs, hSA, h⟩ := bindE_ok_dest h
  obtain ⟨roleDocs, hRole, h⟩ := bindE_ok_dest h
  obtain ⟨rbDocs, hRB, h⟩ := bindE_ok_dest h
  obtain ⟨pipelinePD, hPipe, h⟩ := bindE_ok_dest h
  obtain ⟨notebookPD, hNote, h⟩ := bindE_ok_dest h
  injection h with h
  subst h
  rcases generate_spark_poddefault_ok (by decide) (by decide) (by decide) hPipe with
    ⟨hsa, hPn, _, _, _, hPenv, _, hPargs, hPann, _⟩
  rcases generate_spark_poddefault_ok (by decide) (by decide) (by decide) hNote with
    ⟨_, hNn, _, _, _, hNenv, _, hNargs, _, hNann⟩
  refine ⟨hsa, ?_, ?_⟩
  · intro h5
    subst h5
    refine ⟨pipelinePD, notebookPD, rfl, hPn, hNn, hPenv, by rw [hNenv, hPenv], hPann rfl,
      hPargs, hNargs, ?_⟩
    rw [hNann sparkNotebookAnnotations rfl]
    rw [if_neg (by decide)]
  · intro h5
    subst h5
    rfl

theorem spark_two_poddefaults_amended_witness :
    reconcile_spark_manifests (some "ns") false false false false true [] "spark" =
      Except.ok (okD (reconcile_spark_manifests (some "ns") false false false false true []
        "spark")) ∧
    (∃ infoP infoN,
      (okD (reconcile_spark_manifests (some "ns") false false false false true []
        "spark")).poddefaults = [Manifest.podDefault infoP, Manifest.podDefault infoN] ∧
      infoP.name = SPARK_PIPELINE_PODDEFAULT_NAME ∧
      infoN.name = SPARK_NOTEBOOK_PODDEFAULT_NAME ∧
      infoP.env_vars = [{ name := "SPARK_SERVICE_ACCOUNT", value := some "spark"
                          secret := none, fieldref := none },
                        { name := "SPARK_NAMESPACE", value := none, secret := none
                          fieldref := some { field_path := "metadata.namespace" } }] ∧
      infoN.env_vars = infoP.env_vars ∧
      infoP.annotations = none ∧ infoP.args = none ∧
      infoN.args = some sparkNotebookArgs ∧
      infoN.annotations =
        some (sparkNotebookAnnotations.map fun kv => { key := kv.1, value := kv.2 })) :=
  ⟨rfl,
    (spark_two_poddefaults_amended.2 "ns" "spark" false false false false true [] _
      rfl).2.1 rfl⟩

theorem filterKindE_error {docs : List SparkDoc} (hdoc : ∃ d ∈ docs, d.kind = none)
    (k : String) : filterKindE k docs = Except.error "KeyError: kind" := by
  induction docs with
  | nil => simp at hdoc
  | cons d0 rest ih =>
    rcases hdoc with ⟨d, hd, hk⟩
    rcases List.mem_cons.mp hd with he | he
    · subst he
      simp [filterKindE, hk]
    · cases hkd : d0.kind with
      | none => simp [filterKindE, hkd]
      | some dk => simp [filterKindE, hkd, ih ⟨d, he, hk⟩]

theorem filterKindE_mem {k : String} : ∀ {docs l : List SparkDoc},
    filterKindE k docs = Except.ok l → ∀ d ∈ l, d.kind = some k ∧ d ∈ docs := by
  intro docs
  induction docs with
  | nil =>
    intro l h d hd
    injection h with h
    subst h
    simp at hd
  | cons d0 rest ih =>
    intro l h d hd
    unfold filterKindE at h
    cases hkd : d0.kind with
    | none => rw [hkd] at h; cases h
    | some dk =>
      rw [hkd] at h
      cases hrest : filterKindE k rest with
      | error e => rw [hrest] at h; cases h
      | ok r =>
        rw [hrest] at h
        injection h with h
        subst h
        by_cases hdk : dk = k
        · rw [if_pos hdk] at hd
          rcases List.mem_cons.mp hd with he | he
          · subst he
            subst hdk
            exact ⟨hkd, by simp⟩
          · rcases ih hrest d he with ⟨h1, h2⟩
            exact ⟨h1, List.mem_cons_of_mem _ h2⟩
        · rw [if_neg hdk] at hd
          rcases ih hrest d hd with ⟨h1, h2⟩
          exact ⟨h1, List.mem_cons_of_mem _ h2⟩

/-- C9 counterexample: a parseable bundle containing a document with no
`kind` field makes the Spark renderer raise `KeyError` when the secrets
target is active — the document is not skipped and no batch is returned. -/
theorem spark_missing_kind_counterexample :
    reconcile_spark_manifests (some "p") true false false false false
        [{ kind := none, name := none, subjects := none, extra := [] }] "sa" =
      Except.error "KeyError: kind" := rfl

/-- C9 (amended): a document missing `kind` is not skipped — whenever any of
the four document channels (secrets, serviceaccounts, roles, rolebindings) is
active, the renderer raises `KeyError` and no batch is returned; only when
none of those channels is active are such documents ignored (the renderer
succeeds given a non-empty service account).  In every returned batch each
document channel holds exactly documents of its own kind from the bundle, so
documents of any other kind contribute to no bucket. -/
theorem spark_missing_kind_amended :
    (∀ (p sa : String) (s1 s2 s3 s4 s5 : Bool) (docs : List SparkDoc),
      (s1 = true ∨ s2 = true ∨ s3 = true ∨ s4 = true) →
      (∃ d ∈ docs, d.kind = none) →
      reconcile_spark_manifests (some p) s1 s2 s3 s4 s5 docs sa =
        Except.error "KeyError: kind") ∧
    (∀ (p sa : String) (s5 : Bool) (docs : List SparkDoc), sa ≠ "" →
      ∃ b, reconcile_spark_manifests (some p) false false false false s5 docs sa =
        Except.ok b) ∧
    (∀ (p sa : String) (s1 s2 s3 s4 s5 : Bool) (docs : List SparkDoc)
        (b : ReconciledManifests),
      reconcile_spark_manifests (some p) s1 s2 s3 s4 s5 docs sa = Except.ok b →
      (∀ m ∈ b.secrets, ∃ d ∈ docs, d.kind = some "Secret" ∧ m = Manifest.sparkDoc d) ∧
      (∀ m ∈ b.serviceaccounts, ∃ d ∈ docs, d.kind = some "ServiceAccount" ∧
        m = Manifest.sparkDoc d) ∧
      (∀ m ∈ b.roles, ∃ d ∈ docs, d.kind = some "Role" ∧ m = Manifest.sparkDoc d) ∧
      (∀ m ∈ b.role_bindings, ∃ d ∈ docs, d.kind = some "RoleBinding" ∧
        m = Manifest.sparkDoc (patchRolebindingSubjectNamespace d))) := by
  refine ⟨?_, ?_, ?_⟩
  · intro p sa s1 s2 s3 s4 s5 docs hactive hdoc
    have herr := filterKindE_error hdoc
    cases s1 <;> cases s2 <;> cases s3 <;> cases s4 <;>
      simp_all [reconcile_spark_manifests]
  · intro p sa s5 docs hsa
    cases hres : reconcile_spark_manifests (some p) false false false false s5 docs sa with
    | ok b => exact ⟨b, rfl⟩
    | error e =>
      exfalso
      simp [reconcile_spark_manifests, generate_poddefault_manifest, mapME,
        mkPodDefaultEnvVar, truthy?, dictGet, List.find?, sparkFieldrefs, hsa,
        SPARK_PIPELINE_PODDEFAULT_NAME, SPARK_PIPELINE_PODDEFAULT_DESC,
        SPARK_PIPELINE_PODDEFAULT_SELECTOR_LABEL, SPARK_NOTEBOOK_PODDEFAULT_NAME,
        SPARK_NOTEBOOK_PODDEFAULT_DESC, SPARK_NOTEBOOK_PODDEFAULT_SELECTOR_LABEL,
        sparkNotebookAnnotations] at hres
  · intro p sa s1 s2 s3 s4 s5 docs b h
    simp only [reconcile_spark_manifests] at h
    obtain ⟨secretDocs, hSec, h⟩ := bindE_ok_dest h
    obtain ⟨saDocs, hSA, h⟩ := bindE_ok_dest h
    obtain ⟨roleDocs, hRole, h⟩ := bindE_ok_dest h
    obtain ⟨rbDocs, hRB, h⟩ := bindE_ok_dest h
    obtain ⟨pipelinePD, hPipe, h⟩ := bindE_ok_dest h
    obtain ⟨notebookPD, hNote, h⟩ := bindE_ok_dest h
    injection h with h
    subst h
    refine ⟨?_, ?_, ?_, ?_⟩
    · intro m hm
      rcases List.mem_map.mp hm with ⟨d, hd, he⟩
      cases s1 with
      | true =>
        rw [cond_true] at hSec
        rcases filterKindE_mem hSec d hd with ⟨h1, h2⟩
        exact ⟨d, h2, h1, he.symm⟩
      | false =>
        rw [cond_false] at hSec
        injection hSec with hSec
        subst hSec
        simp at hd
    · intro m hm
      rcases List.mem_map.mp hm with ⟨d, hd, he⟩
      cases s2 with
      | true =>
        rw [cond_true] at hSA
        rcases filterKindE_mem hSA d hd with ⟨h1, h2⟩
        exact ⟨d, h2, h1, he.symm⟩
      | false =>
        rw [cond_false] at hSA
        injection hSA with hSA
        subst hSA
        simp at hd
    · intro m hm
      rcases List.mem_map.mp hm with ⟨d, hd, he⟩
      cases s3 with
      | true =>
        rw [cond_true] at hRole
        rcases filterKindE_mem hRole d hd with ⟨h1, h2⟩
        exact ⟨d, h2, h1, he.symm⟩
      | false =>
        rw [cond_false] at hRole
        injection hRole with hRole
        subst hRole
        simp at hd
    · intro m hm
      rcases List.mem_map.mp hm with ⟨d0, hd0, he⟩
      rcases List.mem_map.mp hd0 with ⟨d, hd, he2⟩
      cases s4 with
      | true =>
        rw [cond_true] at hRB
        rcases filterKindE_mem hRB d hd with ⟨h1, h2⟩
        refine ⟨d, h2, h1, ?_⟩
        rw [← he, ← he2]
      | false =>
        rw [cond_false] at hRB
        injection hRB with hRB
        subst hRB
        simp at hd

theorem spark_missing_kind_amended_witness :
    reconcile_spark_manifests (some "p") true false false false false
        [{ kind := none, name := none, subjects := none, extra := [] }] "sa" =
      Except.error "KeyError: kind" ∧
    (∃ b, reconcile_spark_manifests (some "p") false false false false true
        [{ kind := none, name := none, subjects := none, extra := [] }] "sa" =
      Except.ok b) :=
  ⟨spark_missing_kind_amended.1 "p" "sa" true false false false false
      [{ kind := none, name := none, subjects := none, extra := [] }] (Or.inl rfl)
      ⟨{ kind := none, name := none, subjects := none, extra := [] }, by simp, rfl⟩,
    spark_missing_kind_amended.2.1 "p" "sa" true
      [{ kind := none, name := none, subjects := none, extra := [] }] (by decide)⟩
